import Mathlib

/-!
# Research-Quest graph state machine — a shallow embedding

This file embeds the core of `src/server/index.js` (the `ResearchQuestGraph`
class): the stage-gated in-memory graph, its validation layer, the metadata
factory, and the five operations (`initialize`, `decomposeTask`,
`generateHypotheses`, `getGraphSummary`, `exportGraph`), together with proofs
about them.

Modelling conventions:
* JavaScript numbers are rationals (`ℚ`); the value `NaN` is modelled by the
  `JSNum.nan` constructor where it can be observed (`Number(x)` coercions,
  the unguarded average in `_getImpactDistribution`).
* JavaScript `Map` objects are association lists (`List (String × α)`) with
  `Map.set` insertion-order semantics (`mapSet`), `Map.get` is `List.lookup`.
* JavaScript `Set` objects are duplicate-free lists (`addUniq`).
* Template-literal interpolation of a number uses `natStr`, a decimal
  rendering of naturals (shown injective below).
* Timestamps and UUIDs are nondeterministic I/O and are omitted from the
  metadata records; no claim depends on them.
* `Math.sqrt` (used only for the standard deviation inside
  `_getConfidenceStatistics`) is taken as an uninterpreted parameter
  `sqrtFn : ℚ → ℚ` of the summary functions.
* An exception that escapes an operation's own boundary is an
  `Except.error` outcome; a structured return (the source's
  `{success, ...}` objects) is an `Except.ok` outcome.
-/

namespace ResearchQuest

/-- A JavaScript numeric value after `Number(·)` coercion: either an actual
(rational) number or `NaN`. -/
inductive JSNum where
  | num (q : ℚ)
  | nan
  deriving DecidableEq, Repr

/-- `isNaN` on a coerced value. -/
def JSNum.isNaN : JSNum → Bool
  | .num _ => false
  | .nan => true

/-- A JavaScript value in a string position: an actual string or a value of
another type (whose precise content no check in the source inspects beyond
`typeof v === 'string'`). -/
inductive StrVal where
  | str (s : String)
  | nonStr
  deriving DecidableEq, Repr

/-! ## JS string primitives (list-based, so the kernel can evaluate them;
the built-in `String.trim`, `String.toLower`, and `String.splitOn` are
implemented by well-founded recursion and do not reduce) -/

/-- JS `String.prototype.trim`: drop whitespace from both ends. -/
def jsTrim (s : String) : String :=
  String.mk ((s.data.dropWhile Char.isWhitespace).reverse.dropWhile Char.isWhitespace).reverse

/-- JS `String.prototype.toLowerCase` (ASCII, which is all the source
compares). -/
def jsToLower (s : String) : String := String.mk (s.data.map Char.toLower)

/-- Split a character list at `'.'` (helper for `jsSplitOnDot`). -/
def splitDotChars : List Char → List (List Char)
  | [] => [[]]
  | c :: rest =>
    let r := splitDotChars rest
    if c = '.' then [] :: r
    else
      match r with
      | [] => [[c]]
      | h :: t => (c :: h) :: t

/-- JS `String.prototype.split('.')`. -/
def jsSplitOnDot (s : String) : List String := (splitDotChars s.data).map String.mk

/-- JS `id.startsWith('2.')`. -/
def startsWithDim (s : String) : Bool :=
  match s.data with
  | '2' :: '.' :: _ => true
  | _ => false

/-! ## Decimal rendering of naturals (JS template-literal interpolation) -/

/-- The decimal digit character for `n < 10` (helper for `natStr`). -/
def digitChar (n : ℕ) : Char :=
  match n with
  | 0 => '0' | 1 => '1' | 2 => '2' | 3 => '3' | 4 => '4'
  | 5 => '5' | 6 => '6' | 7 => '7' | 8 => '8' | _ => '9'

/-- Big-endian decimal digit list of `n`, accumulated onto `acc`; structural
recursion on `fuel` (any `fuel` with `n < 10 ^ fuel` is enough). -/
def natCharsAux (fuel : ℕ) (n : ℕ) (acc : List Char) : List Char :=
  match fuel with
  | 0 => acc
  | fuel + 1 =>
    if n < 10 then digitChar n :: acc
    else natCharsAux fuel (n / 10) (digitChar (n % 10) :: acc)

/-- Decimal rendering of a natural number, the model of JavaScript
`${n}` interpolation. -/
def natStr (n : ℕ) : String := String.mk (natCharsAux (n + 1) n [])

/-- Decimal value of a digit list (left fold), used to invert `natCharsAux`. -/
def digitsVal (l : List Char) : ℕ :=
  l.foldl (fun a c => 10 * a + (c.toNat - 48)) 0

theorem digitChar_toNat (n : ℕ) (h : n < 10) : (digitChar n).toNat - 48 = n := by
  interval_cases n <;> rfl

theorem natCharsAux_append (fuel n : ℕ) (acc : List Char) :
    natCharsAux fuel n acc = natCharsAux fuel n [] ++ acc := by
  induction fuel generalizing n acc with
  | zero => rfl
  | succ fuel ih =>
    by_cases h : n < 10
    · simp [natCharsAux, h]
    · simp only [natCharsAux, h, if_false]
      rw [ih (n / 10) (digitChar (n % 10) :: acc), ih (n / 10) [digitChar (n % 10)]]
      simp

theorem digitsVal_from (fuel : ℕ) (a : ℕ) (n : ℕ) (hf : n < 10 ^ fuel) :
    (natCharsAux fuel n []).foldl (fun a c => 10 * a + (c.toNat - 48)) a
      = a * 10 ^ (natCharsAux fuel n []).length + n := by
  induction fuel generalizing a n with
  | zero =>
    simp only [pow_zero, Nat.lt_one_iff] at hf
    simp [natCharsAux, hf]
  | succ fuel ih =>
    by_cases h : n < 10
    · simp [natCharsAux, h, digitChar_toNat n h]
      ring
    · have hn : natCharsAux (fuel + 1) n []
          = natCharsAux fuel (n / 10) [] ++ [digitChar (n % 10)] := by
        simp only [natCharsAux, h, if_false]
        exact natCharsAux_append _ _ _
      have hlt : n / 10 < 10 ^ fuel := by
        rw [Nat.div_lt_iff_lt_mul (by omega)]
        calc n < 10 ^ (fuel + 1) := hf
          _ = 10 ^ fuel * 10 := by rw [pow_succ]
      rw [hn, List.foldl_append, ih a (n / 10) hlt]
      simp [List.length_append, digitChar_toNat (n % 10) (Nat.mod_lt _ (by omega))]
      have hdm : 10 * (n / 10) + n % 10 = n := Nat.div_add_mod n 10
      calc 10 * (a * 10 ^ (natCharsAux fuel (n / 10) []).length + n / 10) + n % 10
          = a * (10 ^ (natCharsAux fuel (n / 10) []).length * 10)
            + (10 * (n / 10) + n % 10) := by ring
        _ = a * 10 ^ ((natCharsAux fuel (n / 10) []).length + 1) + n := by
            rw [hdm, pow_succ]

theorem digitsVal_natStr (n : ℕ) : digitsVal (natStr n).data = n := by
  have hf : n < 10 ^ (n + 1) :=
    lt_of_lt_of_le (Nat.lt_pow_self (by omega) n) (Nat.pow_le_pow_right (by omega) (by omega))
  have := digitsVal_from (n + 1) 0 n hf
  simpa [digitsVal, natStr] using this

theorem natStr_injective : Function.Injective natStr := by
  intro m n h
  have : digitsVal (natStr m).data = digitsVal (natStr n).data := by rw [h]
  rwa [digitsVal_natStr, digitsVal_natStr] at this

/-! ## Map / Set helpers (JS `Map.set`, `Map.get`, `Set.add`) -/

/-- JS `Map.prototype.set`: replace in place if the key exists, otherwise
append (insertion order). -/
def mapSet {α : Type} (m : List (String × α)) (k : String) (v : α) :
    List (String × α) :=
  if (m.lookup k).isSome then
    m.map (fun p => if p.1 = k then (k, v) else p)
  else m ++ [(k, v)]

/-- The keys of an association list. -/
def keysOf {α : Type} (m : List (String × α)) : List String := m.map Prod.fst

/-- JS `Set.prototype.add` on a duplicate-free list. -/
def addUniq (l : List String) (x : String) : List String :=
  if x ∈ l then l else l ++ [x]

theorem lookup_eq_none_of_not_mem_keys {α : Type} (m : List (String × α)) (k : String)
    (h : k ∉ keysOf m) : m.lookup k = none := by
  induction m with
  | nil => rfl
  | cons p t ih =>
    simp only [keysOf, List.map_cons, List.mem_cons, not_or] at h
    have hk : (k == p.1) = false := by
      simp only [beq_eq_false_iff_ne, ne_eq]
      exact h.1
    simp only [List.lookup, hk]
    exact ih h.2

theorem mapSet_of_not_mem {α : Type} (m : List (String × α)) (k : String) (v : α)
    (h : k ∉ keysOf m) : mapSet m k v = m ++ [(k, v)] := by
  simp [mapSet, lookup_eq_none_of_not_mem_keys m k h]

theorem keysOf_append {α : Type} (m₁ m₂ : List (String × α)) :
    keysOf (m₁ ++ m₂) = keysOf m₁ ++ keysOf m₂ := by
  simp [keysOf]

/-! ## Confidence distributions (`_createProbabilityDistribution`, P1.14) -/

/-- The distribution record wrapped around every confidence vector. -/
structure Distribution where
  means : List ℚ
  variances : List ℚ
  distribution_type : String
  samples : ℕ
  confidence_interval : ℚ
  deriving DecidableEq, Repr

/-- Coercion applied to each entry of the means array: a non-number or
out-of-range entry becomes `0.5` (with a logged warning). -/
def coerceMean (v : JSNum) : ℚ :=
  match v with
  | .num q => if q < 0 ∨ q > 1 then mkRat 1 2 else q
  | .nan => mkRat 1 2

/-- `_createProbabilityDistribution(means)`: `none` models a non-array
argument (replaced by the default `[0.5, 0.5, 0.5, 0.5]`). -/
def _createProbabilityDistribution (means : Option (List JSNum)) : Distribution :=
  let ms := (means.getD [.num (mkRat 1 2), .num (mkRat 1 2), .num (mkRat 1 2), .num (mkRat 1 2)])
  let validMeans := ms.map coerceMean
  { means := validMeans
    variances := validMeans.map (fun m => m * (1 - m))
    distribution_type := "beta"
    samples := 1000
    confidence_interval := mkRat 95 100 }

/-- Shorthand for wrapping an already-validated rational vector. -/
def wrapDist (means : List ℚ) : Distribution :=
  _createProbabilityDistribution (some (means.map JSNum.num))

/-! ## Static placeholder metric records (`_createTopologyMetrics`,
`_createInfoMetrics`) -/

structure TopologyMetricsRec where
  centrality : ℚ
  clustering_coeff : ℚ
  degree : ℚ
  betweenness_centrality : ℚ
  eigenvector_centrality : ℚ
  pagerank : ℚ
  deriving DecidableEq, Repr

def _createTopologyMetrics : TopologyMetricsRec := ⟨0, 0, 0, 0, 0, 0⟩

structure InfoMetricsRec where
  entropy : ℚ
  kl_divergence : ℚ
  mutual_information : ℚ
  mdl_score : ℚ
  information_gain : ℚ
  complexity : ℚ
  deriving DecidableEq, Repr

def _createInfoMetrics : InfoMetricsRec := ⟨0, 0, 0, 0, 0, 0⟩

/-! ## Plans (`_generateDefaultPlan`, caller-supplied plans) -/

/-- An investigation plan attached to a hypothesis.  The source stores the
caller's plan object verbatim; only `type` is ever validated. -/
structure Plan where
  ptype : String
  description : String
  tools : List String
  timeline : String
  resources_needed : List String
  expected_outcome : String
  deriving DecidableEq, Repr

/-- `_generateDefaultPlan(content)` — the synthesized default plan. -/
def _generateDefaultPlan (content : String) : Plan :=
  { ptype := "literature_search"
    description := "Systematic literature review for: " ++ content
    tools := ["pubmed_search", "citation_analysis"]
    timeline := "2-4 weeks"
    resources_needed := ["database_access", "literature_review_tools"]
    expected_outcome := "evidence_collection" }

/-! ## Metadata factory (`_createNodeMetadata`, `_createEdgeMetadata`) -/

/-- The complete node metadata bundle (P1.12).  Timestamps and the UUID
fallback for `node_id` are nondeterministic and omitted. -/
structure NodeMetadata where
  provenance : String
  confidence : Distribution
  epistemic_status : String
  disciplinary_tags : List String
  falsification_criteria : Option String
  bias_flags : List String
  revision_history : List String
  layer_id : String
  topology_metrics : TopologyMetricsRec
  statistical_power : Option ℚ
  info_metrics : InfoMetricsRec
  impact_score : ℚ
  attribution : List String
  plan : Option Plan
  deriving DecidableEq, Repr

/-- Partial input to `_createNodeMetadata` (the `baseMetadata` object): only
the fields the class itself ever passes. -/
structure MetaBase where
  provenance : Option String := none
  confidence : Option Distribution := none
  epistemic_status : Option String := none
  disciplinary_tags : Option (List String) := none
  falsification_criteria : Option String := none
  bias_flags : Option (List String) := none
  layer_id : Option String := none
  impact_score : Option JSNum := none
  attribution : Option (List String) := none
  plan : Option Plan := none
  deriving DecidableEq, Repr

/-- `_validateImpactScore(score)`: out-of-range or non-numeric scores become
`0.5` with a warning. -/
def _validateImpactScore (score : JSNum) : ℚ :=
  match score with
  | .num q => if q < 0 ∨ q > 1 then mkRat 1 2 else q
  | .nan => mkRat 1 2

/-- `_createNodeMetadata(base)`: every field filled with its default when
absent.  The catch-all error fallback of the source is unreachable here
(no field constructor throws). -/
def _createNodeMetadata (base : MetaBase) : NodeMetadata :=
  { provenance := base.provenance.getD "system_generated"
    confidence := base.confidence.getD (_createProbabilityDistribution none)
    epistemic_status := base.epistemic_status.getD "pending"
    disciplinary_tags := base.disciplinary_tags.getD []
    falsification_criteria := base.falsification_criteria
    bias_flags := base.bias_flags.getD []
    revision_history := []
    layer_id := base.layer_id.getD "base"
    topology_metrics := _createTopologyMetrics
    statistical_power := none
    info_metrics := _createInfoMetrics
    impact_score := _validateImpactScore (base.impact_score.getD (.num (mkRat 1 2)))
    attribution := base.attribution.getD []
    plan := base.plan }

/-- Edge metadata (`_createEdgeMetadata`). -/
structure EdgeMetadata where
  edge_type : String
  confidence : Distribution
  causal_metadata : Option String
  temporal_metadata : Option String
  weight : ℚ
  bidirectional : Bool
  layer_connection : Option String
  deriving DecidableEq, Repr

/-- Partial input to `_createEdgeMetadata` (only fields the class passes). -/
structure EdgeMetaBase where
  edge_type : Option String := none
  confidence : Option Distribution := none
  deriving DecidableEq, Repr

def _createEdgeMetadata (base : EdgeMetaBase) : EdgeMetadata :=
  { edge_type := base.edge_type.getD "Other"
    confidence := base.confidence.getD
      (_createProbabilityDistribution (some [.num (mkRat 7 10), .num (mkRat 7 10), .num (mkRat 7 10), .num (mkRat 7 10)]))
    causal_metadata := none
    temporal_metadata := none
    weight := 1
    bidirectional := false
    layer_connection := none }

/-! ## Graph store -/

/-- A graph node. -/
structure Node where
  node_id : String
  label : String
  type : String
  content : String
  confidence : Distribution
  metadata : NodeMetadata
  deriving DecidableEq, Repr

/-- A directed edge. -/
structure Edge where
  edge_id : String
  source : String
  target : String
  metadata : EdgeMetadata
  deriving DecidableEq, Repr

/-- A named layer: member node ids and edge ids (`Set`s in the source). -/
structure Layer where
  nodes : List String
  edges : List String
  deriving DecidableEq, Repr

/-- The aggregate graph state `Gₜ` of the `ResearchQuestGraph` class.
`stageLabel` models `this.metadata.stage`. -/
structure Graph where
  vertices : List (String × Node)
  edges : List (String × Edge)
  hyperedges : List (String × Unit)
  layers : List (String × Layer)
  nodeTypes : List String
  currentStage : ℕ
  stageLabel : String
  deriving DecidableEq, Repr

/-- The five default layers seeded by `_initializeLayerStructure`. -/
def defaultLayers : List (String × Layer) :=
  [("base", ⟨[], []⟩), ("methodological", ⟨[], []⟩), ("empirical", ⟨[], []⟩),
   ("theoretical", ⟨[], []⟩), ("interdisciplinary", ⟨[], []⟩)]

/-- The constructor: `enableMultiLayer` is `config.enable_multi_layer !== false`. -/
def newGraph (enableMultiLayer : Bool) : Graph :=
  { vertices := []
    edges := []
    hyperedges := []
    layers := if enableMultiLayer then defaultLayers else []
    nodeTypes := []
    currentStage := 0
    stageLabel := "initialization" }

/-- The stage-name table. -/
def stageNames : List String :=
  ["initialization", "decomposition", "hypothesis_planning",
   "evidence_integration", "pruning_merging", "subgraph_extraction",
   "composition", "reflection"]

/-- `stageNames[currentStage - 1] || 'pre-initialization'` (summary) — JS
indexing with `-1` gives `undefined`. -/
def stageNameAt (stage : ℕ) (fallback : String) : String :=
  if stage = 0 then fallback else (stageNames.getD (stage - 1) fallback)

/-- Add a node id to a layer's node set; a missing layer id is a no-op here
(in the source a missing layer would be a `TypeError`, but every call site
either checks `layers.has(...)` first or runs after `initialize` has ensured
the default layers exist). -/
def addNodeToLayer (layers : List (String × Layer)) (layerId nodeId : String) :
    List (String × Layer) :=
  layers.map (fun p => if p.1 = layerId then (p.1, ⟨addUniq p.2.nodes nodeId, p.2.edges⟩) else p)

/-- Clear the node/edge member sets of every layer (used by re-initialization
and `_resetToInitialState`). -/
def clearLayerMembers (layers : List (String × Layer)) : List (String × Layer) :=
  layers.map (fun p => (p.1, ⟨[], []⟩))

/-- `_resetToInitialState()`. -/
def _resetToInitialState (g : Graph) : Graph :=
  { vertices := []
    edges := []
    hyperedges := []
    layers := if g.layers.length > 0 then clearLayerMembers g.layers else defaultLayers
    nodeTypes := []
    currentStage := 0
    stageLabel := "initialization" }

/-! ## Validation layer -/

/-- The payload of a `McpError(ErrorCode.InvalidParams, ...)` built by
`_createValidationError`: the offending field and the expectation text.
(The `Received: <JSON>` suffix and example list carry no information any
claim inspects and are elided.) -/
structure ValidationError where
  field : String
  expected : String
  deriving DecidableEq, Repr

/-- A thrown JS exception: a typed `McpError` from the validation layer, or a
plain `Error` with a message. -/
inductive Thrown where
  | mcp (e : ValidationError)
  | err (msg : String)
  deriving DecidableEq, Repr

/-- `error.message` of a thrown exception. -/
def Thrown.message : Thrown → String
  | .mcp e => "Invalid parameter '" ++ e.field ++ "': " ++ e.expected
  | .err m => m

instance {ε α : Type} [DecidableEq ε] [DecidableEq α] : DecidableEq (Except ε α) := fun x y =>
  match x, y with
  | .ok a, .ok b =>
    if h : a = b then .isTrue (by rw [h]) else .isFalse (by intro hc; cases hc; exact h rfl)
  | .ok _, .error _ => .isFalse (by intro hc; cases hc)
  | .error _, .ok _ => .isFalse (by intro hc; cases hc)
  | .error e, .error f =>
    if h : e = f then .isTrue (by rw [h]) else .isFalse (by intro hc; cases hc; exact h rfl)

/-- The `taskDescription` argument: `null`/`undefined`, a non-string value,
or a string. -/
inductive TaskInput where
  | nullV
  | nonString
  | str (s : String)
  deriving DecidableEq, Repr

/-- The `initialConfidence` argument: a non-array value or an array of
coerced numbers. -/
inductive ConfInput where
  | notArray
  | arr (l : List JSNum)
  deriving DecidableEq, Repr

/-- Element-wise pass of `_validateConfidenceArray` (`confidence.map` with a
throw inside stops at the first offending element). -/
def validateConfElems (pname : String) : List JSNum → ℕ → Except ValidationError (List ℚ)
  | [], _ => .ok []
  | v :: rest, i =>
    match v with
    | .nan => .error ⟨pname ++ "[" ++ natStr i ++ "]", "a number between 0 and 1"⟩
    | .num q =>
      if q < 0 ∨ q > 1 then
        .error ⟨pname ++ "[" ++ natStr i ++ "]", "a number between 0 and 1 (inclusive)"⟩
      else do
        let r ← validateConfElems pname rest (i + 1)
        pure (q :: r)

/-- `_validateConfidenceArray(confidence, paramName)`. -/
def _validateConfidenceArray (confidence : ConfInput) (paramName : String) :
    Except ValidationError (List ℚ) :=
  match confidence with
  | .notArray => .error ⟨paramName, "array of 4 numbers between 0 and 1"⟩
  | .arr l =>
    if l.length ≠ 4 then
      .error ⟨paramName,
        "array with exactly 4 elements [empirical_support, theoretical_basis, methodological_rigor, consensus_alignment]"⟩
    else validateConfElems paramName l 0

/-- `_validateTaskDescription(taskDescription)`. -/
def _validateTaskDescription (taskDescription : TaskInput) :
    Except ValidationError String :=
  match taskDescription with
  | .nullV => .error ⟨"task_description", "a non-empty string describing the research task"⟩
  | .nonString => .error ⟨"task_description", "a string"⟩
  | .str s =>
    let trimmed := jsTrim s
    if trimmed.length = 0 then
      .error ⟨"task_description", "a non-empty string"⟩
    else if trimmed.length < 10 then
      .error ⟨"task_description", "a descriptive string with at least 10 characters"⟩
    else if trimmed.length > 1000 then
      .error ⟨"task_description", "a string with maximum 1000 characters"⟩
    else .ok trimmed

/-- The regex `^2\.\d+$`. -/
def isDimFormat (s : String) : Bool :=
  match s.data with
  | '2' :: '.' :: rest => rest ≠ [] && rest.all Char.isDigit
  | _ => false

/-- `_validateDimensionNodeId(nodeId, existingNodes)`. -/
def _validateDimensionNodeId (nodeId : StrVal)
    (existingNodes : Option (List (String × Node))) :
    Except ValidationError String :=
  match nodeId with
  | .nonStr => .error ⟨"dimension_node_id", "a non-empty string in format \x222.X\x22"⟩
  | .str s =>
    if s = "" then
      .error ⟨"dimension_node_id", "a non-empty string in format \x222.X\x22"⟩
    else if ¬ isDimFormat s then
      .error ⟨"dimension_node_id", "a string in format \x222.X\x22 where X is the dimension number"⟩
    else
      match existingNodes with
      | none => .ok s
      | some nodes =>
        if (nodes.lookup s).isSome then .ok s
        else
          .error ⟨"dimension_node_id",
            "an existing dimension node ID. Available: "
              ++ String.intercalate ", " ((keysOf nodes).filter startsWithDim)⟩

/-- A caller-supplied hypothesis plan object: a non-object value, or an
object whose `type` property is `ptype` (the stored record is `p`). -/
inductive PlanInput where
  | notObj
  | obj (ptype : StrVal) (p : Plan)
  deriving DecidableEq, Repr

/-- An array-of-strings argument position (`disciplinary_tags`,
`attribution`): non-array, or an array of values. -/
inductive ArrStrInput where
  | notArr
  | arr (l : List StrVal)
  deriving DecidableEq, Repr

/-- Drop entries that are not non-empty strings (with a warning) and trim the
rest — the lenient per-entry filter used by config and hypothesis fields. -/
def filterTrimStrings (l : List StrVal) : List String :=
  (l.filterMap (fun v =>
    match v with
    | .str s => if jsTrim s = "" then none else some (jsTrim s)
    | .nonStr => none))

/-- A single element of the `hypotheses` argument. -/
inductive HypInput where
  | strH (s : String)
  | objH (content : Option StrVal) (confidence : Option ConfInput)
      (falsification_criteria : Option StrVal) (plan : Option PlanInput)
      (impact_score : Option JSNum) (disciplinary_tags : Option ArrStrInput)
      (attribution : Option ArrStrInput)
  | otherH
  deriving DecidableEq, Repr

/-- The `hypotheses` argument as a whole. -/
inductive HypsInput where
  | notArr
  | arr (l : List HypInput)
  deriving DecidableEq, Repr

/-- `_validateHypothesesArray(hypotheses)` — the collection-level length rule. -/
def _validateHypothesesArray (hypotheses : HypsInput) :
    Except ValidationError (List HypInput) :=
  match hypotheses with
  | .notArr => .error ⟨"hypotheses", "an array of hypothesis objects or strings"⟩
  | .arr l =>
    if l.length < 3 then
      .error ⟨"hypotheses", "an array with at least 3 hypotheses (P1.3 specification)"⟩
    else if l.length > 5 then
      .error ⟨"hypotheses", "an array with maximum 5 hypotheses (P1.3 specification)"⟩
    else .ok l

/-- `_validateExportFormat(format)` (present in the class; the export tool
handler re-implements the same check inline). -/
def _validateExportFormat (format : StrVal) : Except ValidationError String :=
  match format with
  | .nonStr => .error ⟨"format", "a string specifying export format"⟩
  | .str s =>
    if s = "" then .error ⟨"format", "a string specifying export format"⟩
    else if jsToLower s = "json" ∨ jsToLower s = "yaml" then .ok (jsToLower s)
    else .error ⟨"format", "one of: json, yaml"⟩

/-- The normalized result of `_validateHypothesis`. -/
structure ValidatedHyp where
  content : String
  confidence : Option (List ℚ) := none
  falsification_criteria : Option String := none
  plan : Option Plan := none
  impact_score : Option ℚ := none
  disciplinary_tags : Option (List String) := none
  attribution : Option (List String) := none
  needs_plan : Bool := false
  needs_falsification_criteria : Bool := false
  deriving DecidableEq, Repr

/-- `_validateHypothesis(hypothesis, index)` — per-item validation, in source
order; an invalid `confidence` is logged and skipped rather than thrown. -/
def _validateHypothesis (hypothesis : HypInput) (index : ℕ) :
    Except ValidationError ValidatedHyp :=
  let pre := "hypotheses[" ++ natStr index ++ "]"
  match hypothesis with
  | .strH s =>
    if jsTrim s = "" then
      .error ⟨pre, "a non-empty string or object with content"⟩
    else
      .ok { content := jsTrim s, needs_plan := true, needs_falsification_criteria := true }
  | .objH content confidence falsification plan impact tags attrib => do
    let c ← match content with
      | some (.str s) =>
        if jsTrim s = "" then
          Except.error (⟨pre ++ ".content", "a non-empty string describing the hypothesis"⟩ : ValidationError)
        else Except.ok (jsTrim s)
      | _ => Except.error (⟨pre ++ ".content", "a non-empty string describing the hypothesis"⟩ : ValidationError)
    let conf : Option (List ℚ) := match confidence with
      | none => none
      | some ci =>
        match _validateConfidenceArray ci (pre ++ ".confidence") with
        | .ok v => some v
        | .error _ => none
    let fc ← match falsification with
      | none => Except.ok (none : Option String)
      | some (.str s) =>
        if jsTrim s = "" then
          Except.error (⟨pre ++ ".falsification_criteria",
            "a non-empty string describing testable criteria (P1.16 requirement)"⟩ : ValidationError)
        else Except.ok (some (jsTrim s))
      | some .nonStr =>
        Except.error (⟨pre ++ ".falsification_criteria",
          "a non-empty string describing testable criteria (P1.16 requirement)"⟩ : ValidationError)
    let pl ← match plan with
      | none => Except.ok (none : Option Plan)
      | some .notObj =>
        Except.error (⟨pre ++ ".plan",
          "an object describing the investigation plan (P1.3 requirement)"⟩ : ValidationError)
      | some (.obj ptype p) =>
        match ptype with
        | .str s =>
          if s = "" then
            Except.error (⟨pre ++ ".plan.type", "a string describing the plan type"⟩ : ValidationError)
          else Except.ok (some p)
        | .nonStr =>
          Except.error (⟨pre ++ ".plan.type", "a string describing the plan type"⟩ : ValidationError)
    let isc ← match impact with
      | none => Except.ok (none : Option ℚ)
      | some v =>
        match v with
        | .nan =>
          Except.error (⟨pre ++ ".impact_score",
            "a number between 0 and 1 representing expected impact"⟩ : ValidationError)
        | .num q =>
          if q < 0 ∨ q > 1 then
            Except.error (⟨pre ++ ".impact_score",
              "a number between 0 and 1 representing expected impact"⟩ : ValidationError)
          else Except.ok (some q)
    let dt ← match tags with
      | none => Except.ok (none : Option (List String))
      | some .notArr =>
        Except.error (⟨pre ++ ".disciplinary_tags", "an array of strings"⟩ : ValidationError)
      | some (.arr l) => Except.ok (some (filterTrimStrings l))
    let at_ ← match attrib with
      | none => Except.ok (none : Option (List String))
      | some .notArr =>
        Except.error (⟨pre ++ ".attribution", "an array of strings"⟩ : ValidationError)
      | some (.arr l) => Except.ok (some (filterTrimStrings l))
    pure { content := c
           confidence := conf
           falsification_criteria := fc
           plan := pl
           impact_score := isc
           disciplinary_tags := dt
           attribution := at_
           needs_plan := plan.isNone
           needs_falsification_criteria := falsification.isNone }
  | .otherH => .error ⟨pre, "a string or object with hypothesis content"⟩

/-- The `config` object of `initialize`. -/
structure ConfigObj where
  disciplinary_tags : Option ArrStrInput := none
  attribution : Option ArrStrInput := none
  enable_multi_layer : Option (Option Bool) := none
  deriving DecidableEq, Repr

/-- The `config` argument of `initialize`: `null`/`undefined`, a non-object
(incl. array), or an object. -/
inductive ConfigInput where
  | nullV
  | notObj
  | obj (c : ConfigObj)
  deriving DecidableEq, Repr

/-- The normalized `safeConfig` of `_validateConfig`. -/
structure SafeConfig where
  disciplinary_tags : Option (List String) := none
  attribution : Option (List String) := none
  enable_multi_layer : Option Bool := none
  deriving DecidableEq, Repr

/-- `_validateConfig(config)`. A non-boolean `enable_multi_layer` only
warns; invalid array entries are dropped with a warning. -/
def _validateConfig (config : ConfigInput) : Except ValidationError SafeConfig :=
  match config with
  | .nullV => .ok {}
  | .notObj => .error ⟨"config", "an object with configuration properties"⟩
  | .obj c => do
    let dt ← match c.disciplinary_tags with
      | none => Except.ok (none : Option (List String))
      | some .notArr =>
        Except.error (⟨"config.disciplinary_tags", "an array of strings"⟩ : ValidationError)
      | some (.arr l) => Except.ok (some (filterTrimStrings l))
    let at_ ← match c.attribution with
      | none => Except.ok (none : Option (List String))
      | some .notArr =>
        Except.error (⟨"config.attribution", "an array of strings"⟩ : ValidationError)
      | some (.arr l) => Except.ok (some (filterTrimStrings l))
    let eml : Option Bool := match c.enable_multi_layer with
      | none => none
      | some none => none
      | some (some b) => some b
    pure { disciplinary_tags := dt, attribution := at_, enable_multi_layer := eml }

/-- The `config` argument of `generateHypotheses`. -/
inductive HypConfigInput where
  | nonObj
  | obj (max_hypotheses : Option JSNum)
  deriving DecidableEq, Repr

/-- JS `Math.floor` on a positive number, as a natural (truncating integer
division agrees with floor for non-negative values). -/
def floorToNat (q : ℚ) : ℕ := (q.num / (q.den : ℤ)).toNat

/-- `_validateHypothesisConfig(config)`: never throws; an invalid
`max_hypotheses` falls back to `5` with a warning, a valid one is floored. -/
def _validateHypothesisConfig (config : HypConfigInput) : Option ℕ :=
  match config with
  | .nonObj => none
  | .obj mh =>
    match mh with
    | none => none
    | some v =>
      match v with
      | .nan => some 5
      | .num q => if 0 < q ∧ q ≤ 5 then some (floorToNat q) else some 5

/-- JS `x || d` for an optional number in a count position (`0` is falsy). -/
def jsOrNat (x : Option ℕ) (d : ℕ) : ℕ :=
  match x with
  | none => d
  | some 0 => d
  | some n => n

/-- `_inferDisciplinaryTags(dimension)` — the fixed name→tags table (P1.8). -/
def _inferDisciplinaryTags (dimension : String) : List String :=
  if dimension = "Scope" then ["methodology", "research_design"]
  else if dimension = "Objectives" then ["goals", "outcomes"]
  else if dimension = "Constraints" then ["limitations", "resources"]
  else if dimension = "Data Needs" then ["data_science", "methodology"]
  else if dimension = "Use Cases" then ["application", "translation"]
  else if dimension = "Potential Biases" then ["methodology", "bias_detection"]
  else if dimension = "Knowledge Gaps" then ["knowledge_discovery", "research_gaps"]
  else ["general"]

/-- Character-list prefix test (helper for `strContains`). -/
def isPrefixChars : List Char → List Char → Bool
  | [], _ => true
  | _ :: _, [] => false
  | c :: cs, d :: ds => c = d && isPrefixChars cs ds

/-- Character-list infix test (helper for `strContains`). -/
def isInfixChars (pat : List Char) : List Char → Bool
  | [] => isPrefixChars pat []
  | l@(_ :: rest) => isPrefixChars pat l || isInfixChars pat rest

/-- Substring containment, the model of JS `String.prototype.includes`. -/
def strContains (s pat : String) : Bool := isInfixChars pat.data s.data

/-- `_assessInitialBiasRisk(hypothesis)` — naive keyword scan over the
(lower-cased) content (P1.17). -/
def _assessInitialBiasRisk (content : String) : List String :=
  let c := jsToLower content
  (if strContains c "always" || strContains c "never" then ["absolute_thinking"] else [])
    ++ (if strContains c "obvious" || strContains c "clearly" then ["confirmation_bias_risk"] else [])
    ++ (if strContains c "proven" || strContains c "definitively" then ["overconfidence_bias"] else [])

/-! ## Stage 1: `initialize` -/

/-- JS `x || d` where `x` is an optional array (arrays are always truthy,
including empty ones). -/
def jsOrList (x : Option (List String)) (d : List String) : List String :=
  match x with
  | none => d
  | some l => l

/-- `_initializeLayerStructure()`: `Map.set` each of the five default layers
onto the existing layer map. -/
def _initializeLayerStructureOn (layers : List (String × Layer)) :
    List (String × Layer) :=
  defaultLayers.foldl (fun acc p => mapSet acc p.1 p.2) layers

/-- The structured result object of `initialize` (success and failure shapes
merged; fields absent in one shape are `none`/defaults in the other). -/
structure InitResult where
  success : Bool
  node_id : Option String
  message : String
  current_stage : ℕ
  stage_name : Option String
  error : Option String
  recovery_attempted : Bool
  warnings : List String
  deriving DecidableEq, Repr

/-- The root node `n0` built by `initialize` from the validated task
description, confidence vector, and config (P1.1). -/
def mkRootNode (validatedTaskDescription : String) (validatedConfidence : List ℚ)
    (safeConfig : SafeConfig) : Node :=
  { node_id := "n0"
    label := "Task Understanding"
    type := "root"
    content := validatedTaskDescription
    confidence := wrapDist validatedConfidence
    metadata := _createNodeMetadata
      { provenance := some "user_input"
        epistemic_status := some "accepted"
        confidence := some (wrapDist validatedConfidence)
        layer_id := some "base"
        disciplinary_tags :=
          some (jsOrList safeConfig.disciplinary_tags ["immunology", "dermatology"])
        impact_score := some (.num (mkRat 8 10))
        attribution := some (jsOrList safeConfig.attribution []) } }

/-- The `try`-block of `initialize(taskDescription, initialConfidence,
config)`; a thrown error is handled by the wrapper below.  `conf = none`
models an omitted `initialConfidence` (JS default `[0.8, 0.8, 0.8, 0.8]`). -/
def initializeCore (g : Graph) (task : TaskInput) (conf : Option ConfInput)
    (config : ConfigInput) : Except Thrown (InitResult × Graph) :=
  if g.currentStage ≠ 0 then
    .error (.err ("Cannot initialize. Current stage: " ++ natStr g.currentStage
      ++ ", expected: 0 (before initialization)"))
  else
    -- re-entrant call: clear vertices/edges/hyperedges and layer members
    let g := if g.vertices.length > 0 then
        { g with vertices := [], edges := [], hyperedges := [],
                 layers := clearLayerMembers g.layers }
      else g
    do
    let validatedTaskDescription ← (_validateTaskDescription task).mapError Thrown.mcp
    let confInput := conf.getD (.arr [.num (mkRat 8 10), .num (mkRat 8 10), .num (mkRat 8 10), .num (mkRat 8 10)])
    let validatedConfidence ←
      (_validateConfidenceArray confInput "initial_confidence").mapError Thrown.mcp
    let safeConfig ← (_validateConfig config).mapError Thrown.mcp
    let rootNode := mkRootNode validatedTaskDescription validatedConfidence safeConfig
    let g := { g with vertices := mapSet g.vertices "n0" rootNode,
                      nodeTypes := addUniq g.nodeTypes "root" }
    let g := if (g.layers.lookup "base").isSome then
        { g with layers := addNodeToLayer g.layers "base" "n0" }
      else
        { g with layers := addNodeToLayer (_initializeLayerStructureOn g.layers) "base" "n0" }
    let g := { g with stageLabel := "initialization", currentStage := 1 }
    pure ({ success := true
            node_id := some "n0"
            message := "ASR-GoT graph initialized successfully following P1.1 specification"
            current_stage := 1
            stage_name := some (stageNames.getD 0 "")
            error := none
            recovery_attempted := false
            warnings := if g.layers.length = 0 then ["No layers initialized"] else [] }, g)

/-- `initialize` with its `catch`: a thrown error resets the graph
(`_resetToInitialState`) and is converted to a structured failure.  (The
partial mutations present when an error is thrown never change what the
reset produces, so the reset is applied to the entry state; the source's
nested "recovery failed" branch is unreachable because the reset itself
cannot throw.) -/
def initializeOp (g : Graph) (task : TaskInput) (conf : Option ConfInput)
    (config : ConfigInput) : (Except Thrown InitResult) × Graph :=
  match initializeCore g task conf config with
  | .ok (r, g') => (.ok r, g')
  | .error e =>
    let g' := _resetToInitialState g
    (.ok { success := false
           node_id := none
           message := "Initialization failed, graph reset to initial state"
           current_stage := g'.currentStage
           stage_name := none
           error := some e.message
           recovery_attempted := true
           warnings := [] }, g')

/-! ## Stage 2: `decomposeTask` -/

/-- The P1.2 default dimensions. -/
def defaultDimensions : List String :=
  ["Scope", "Objectives", "Constraints", "Data Needs",
   "Use Cases", "Potential Biases", "Knowledge Gaps"]

/-- The dimension node `2.<index+1>` created for `dimension`. -/
def mkDimensionNode (dimension : String) (index : ℕ) : Node :=
  { node_id := "2." ++ natStr (index + 1)
    label := dimension
    type := "dimension"
    content := "Analysis of " ++ dimension ++ " aspects of the research task"
    confidence := wrapDist [mkRat 8 10, mkRat 8 10, mkRat 8 10, mkRat 8 10]
    metadata := _createNodeMetadata
      { provenance := some "task_decomposition"
        epistemic_status := some "pending"
        confidence := some (wrapDist [mkRat 8 10, mkRat 8 10, mkRat 8 10, mkRat 8 10])
        layer_id := some "base"
        impact_score := some (.num (mkRat 6 10))
        disciplinary_tags := some (_inferDisciplinaryTags dimension) } }

/-- The edge `n0 → 2.<index+1>` typed `Decomposition`. -/
def mkDecompositionEdge (index : ℕ) : Edge :=
  { edge_id := "e_n0_2." ++ natStr (index + 1)
    source := "n0"
    target := "2." ++ natStr (index + 1)
    metadata := _createEdgeMetadata
      { edge_type := some "Decomposition"
        confidence := some (wrapDist [mkRat 9 10, mkRat 9 10, mkRat 9 10, mkRat 9 10]) } }

/-- One iteration of the `taskDimensions.forEach` loop of `decomposeTask`. -/
def decompStep (acc : Graph × List String) (p : ℕ × String) : Graph × List String :=
  let g := acc.1
  let nodeId := "2." ++ natStr (p.1 + 1)
  let g := { g with vertices := mapSet g.vertices nodeId (mkDimensionNode p.2 p.1),
                    nodeTypes := addUniq g.nodeTypes "dimension",
                    layers := addNodeToLayer g.layers "base" nodeId }
  let g := { g with edges := mapSet g.edges ("e_n0_2." ++ natStr (p.1 + 1)) (mkDecompositionEdge p.1) }
  (g, acc.2 ++ [nodeId])

/-- The structured result object of `decomposeTask`. -/
structure DecompResult where
  success : Bool
  dimension_nodes : List String
  message : String
  current_stage : ℕ
  stage_name : String
  dimensions : List String
  deriving DecidableEq, Repr

/-- `decomposeTask(customDimensions)`.  There is no `try`/`catch` here: the
wrong-stage `Error` escapes the method (an `Except.error` outcome). -/
def decomposeTask (g : Graph) (customDimensions : Option (List String)) :
    (Except Thrown DecompResult) × Graph :=
  if g.currentStage ≠ 1 then
    (.error (.err ("Cannot decompose. Current stage: " ++ natStr g.currentStage
      ++ ", expected: 1")), g)
  else
    let taskDimensions := customDimensions.getD defaultDimensions
    let folded := (taskDimensions.enum).foldl decompStep (g, [])
    let g' := { folded.1 with currentStage := 2, stageLabel := "decomposition" }
    (.ok { success := true
           dimension_nodes := folded.2
           message := "Task decomposed into " ++ natStr taskDimensions.length
             ++ " dimensions following P1.2 specification exactly"
           current_stage := 2
           stage_name := stageNames.getD 1 ""
           dimensions := taskDimensions }, g')

/-! ## Stage 3: `generateHypotheses` -/

/-- JS `x || d` for an optional number position where `0` is falsy
(`validated.impact_score || 0.6`). -/
def jsOrQ (x : Option ℚ) (d : ℚ) : ℚ :=
  match x with
  | none => d
  | some q => if q = 0 then d else q

/-- The hypothesis node `3.<dim>.<index+1>` built from a validated item. -/
def mkHypothesisNode (dimensionNumber : String) (index : ℕ) (v : ValidatedHyp) : Node :=
  let nodeId := "3." ++ dimensionNumber ++ "." ++ natStr (index + 1)
  let metadata := _createNodeMetadata
    { provenance := some "hypothesis_generation"
      epistemic_status := some "hypothetical"
      confidence := some (match v.confidence with
        | some c => wrapDist c
        | none => wrapDist [mkRat 1 2, mkRat 1 2, mkRat 1 2, mkRat 1 2])
      disciplinary_tags := some (v.disciplinary_tags.getD [])
      falsification_criteria := v.falsification_criteria
      bias_flags := some (_assessInitialBiasRisk v.content)
      impact_score := some (.num (jsOrQ v.impact_score (mkRat 6 10)))
      attribution := some (v.attribution.getD [])
      layer_id := some "theoretical"
      plan := some (match v.plan with
        | some p => p
        | none => _generateDefaultPlan v.content) }
  { node_id := nodeId
    label := "Hypothesis " ++ dimensionNumber ++ "." ++ natStr (index + 1)
    type := "hypothesis"
    content := v.content
    confidence := metadata.confidence
    metadata := metadata }

/-- One iteration of the per-item loop of `generateHypotheses`: an item-level
validation error is caught, recorded, and processing continues. -/
def hypStep (dimensionNodeId dimensionNumber : String)
    (acc : Graph × List String × List String) (p : ℕ × HypInput) :
    Graph × List String × List String :=
  let g := acc.1
  let nodes := acc.2.1
  let errs := acc.2.2
  match _validateHypothesis p.2 p.1 with
  | .error e =>
    (g, nodes, errs ++ ["Hypothesis " ++ natStr (p.1 + 1) ++ ": " ++ (Thrown.mcp e).message])
  | .ok v =>
    let nodeId := "3." ++ dimensionNumber ++ "." ++ natStr (p.1 + 1)
    let g := { g with vertices := mapSet g.vertices nodeId (mkHypothesisNode dimensionNumber p.1 v),
                      nodeTypes := addUniq g.nodeTypes "hypothesis",
                      layers := if (g.layers.lookup "theoretical").isSome then
                          addNodeToLayer g.layers "theoretical" nodeId
                        else addNodeToLayer g.layers "base" nodeId }
    let edgeId := "e_" ++ dimensionNodeId ++ "_" ++ nodeId
    let edge : Edge :=
      { edge_id := edgeId
        source := dimensionNodeId
        target := nodeId
        metadata := _createEdgeMetadata
          { edge_type := some "Hypothesis"
            confidence := some (wrapDist [mkRat 8 10, mkRat 8 10, mkRat 8 10, mkRat 8 10]) } }
    let g := { g with edges := mapSet g.edges edgeId edge }
    (g, nodes ++ [nodeId], errs)

/-- The structured result object of `generateHypotheses` (success and failure
shapes merged). -/
structure HypResult where
  success : Bool
  hypothesis_nodes : List String
  message : String
  current_stage : ℕ
  stage_name : String
  errors : Option (List String)
  warnings : Option (List String)
  error : Option String
  recovery_attempted : Bool
  deriving DecidableEq, Repr

/-- The `try`-block of `generateHypotheses(dimensionNodeId, hypotheses,
config)`.  (The not-a-dimension-node error is an `McpError` built with a
plain message rather than through `_createValidationError`; it is modelled
as `Thrown.err` since only its message is ever observed.) -/
def generateHypothesesCore (g : Graph) (dimensionNodeId : StrVal)
    (hypotheses : HypsInput) (config : HypConfigInput) :
    Except Thrown (HypResult × Graph) :=
  if g.currentStage ≠ 2 then
    .error (.err ("Cannot generate hypotheses. Current stage: " ++ natStr g.currentStage
      ++ ", expected: 2"))
  else do
    let validatedNodeId ←
      (_validateDimensionNodeId dimensionNodeId (some g.vertices)).mapError Thrown.mcp
    match g.vertices.lookup validatedNodeId with
    | none =>
      -- unreachable: `_validateDimensionNodeId` checked membership
      throw (.err "unreachable: validated node id not found")
    | some dimensionNode =>
      if dimensionNode.type ≠ "dimension" then
        throw (.err ("Node " ++ validatedNodeId ++ " is not a dimension node (type: "
          ++ dimensionNode.type ++ "). Expected a dimension node created in Stage 2."))
      else do
        let validatedHypotheses ← (_validateHypothesesArray hypotheses).mapError Thrown.mcp
        let safeMax := _validateHypothesisConfig config
        let maxHypotheses := min (jsOrNat safeMax 5) 5
        let dimensionParts := jsSplitOnDot validatedNodeId
        if dimensionParts.length < 2 then
          -- unreachable: the format check guarantees two parts
          throw (.err ("Invalid dimension node ID format: " ++ validatedNodeId
            ++ ". Expected format: 2.X"))
        else
          let dimensionNumber := dimensionParts.getD 1 ""
          let folded := ((validatedHypotheses.take maxHypotheses).enum).foldl
            (hypStep validatedNodeId dimensionNumber) (g, [], [])
          let hypothesisNodes := folded.2.1
          let errors := folded.2.2
          if hypothesisNodes.length = 0 then
            throw (.err ("Failed to create any hypotheses. Errors: "
              ++ String.intercalate "; " errors))
          else
            let g' := { folded.1 with currentStage := 3, stageLabel := "hypothesis_planning" }
            pure ({ success := true
                    hypothesis_nodes := hypothesisNodes
                    message := "Generated " ++ natStr hypothesisNodes.length
                      ++ " hypotheses following P1.3 specification exactly"
                    current_stage := 3
                    stage_name := stageNames.getD 2 ""
                    errors := if errors.length > 0 then some errors else none
                    warnings := if errors.length > 0 then
                        some [natStr errors.length ++ " hypotheses failed to create"]
                      else none
                    error := none
                    recovery_attempted := false }, g')

/-- `generateHypotheses` with its `catch`: every thrown error becomes a
structured failure; no mutation has happened on any throwing path, so the
entry state is returned unchanged. -/
def generateHypotheses (g : Graph) (dimensionNodeId : StrVal) (hypotheses : HypsInput)
    (config : HypConfigInput) : (Except Thrown HypResult) × Graph :=
  match generateHypothesesCore g dimensionNodeId hypotheses config with
  | .ok (r, g') => (.ok r, g')
  | .error e =>
    (.ok { success := false
           hypothesis_nodes := []
           message := "Hypothesis generation failed"
           current_stage := g.currentStage
           stage_name := stageNameAt g.currentStage "unknown"
           errors := none
           warnings := none
           error := some e.message
           recovery_attempted := false }, g)

/-! ## Summary (`getGraphSummary`) -/

/-- JS `[...new Set(l)]`: deduplicate preserving first occurrences. -/
def dedupFirst (l : List String) : List String := l.foldl addUniq []

/-- `_getNeighbors(nodeId)`. -/
def _getNeighbors (g : Graph) (nodeId : String) : List String :=
  dedupFirst (g.edges.foldl (fun acc p =>
    let acc := if p.2.source = nodeId then acc ++ [p.2.target] else acc
    if p.2.target = nodeId then acc ++ [p.2.source] else acc) [])

/-- `_countEdgesBetweenNodes(nodeIds)`. -/
def _countEdgesBetweenNodes (g : Graph) (nodeIds : List String) : ℕ :=
  (g.edges.filter (fun p => decide (p.2.source ∈ nodeIds ∧ p.2.target ∈ nodeIds))).length

/-- `_calculateClusteringCoefficient()` (simplified local clustering averaged
over nodes with at least two neighbours). -/
def _calculateClusteringCoefficient (g : Graph) : ℚ :=
  let contribs := (keysOf g.vertices).filterMap (fun nodeId =>
    let neighbors := _getNeighbors g nodeId
    if neighbors.length ≥ 2 then
      some ((_countEdgesBetweenNodes g neighbors : ℚ)
        / (((neighbors.length : ℚ) * ((neighbors.length : ℚ) - 1)) / 2))
    else none)
  if contribs.length > 0 then contribs.sum / (contribs.length : ℚ) else 0

/-- Depth-first traversal over the undirected view of the edges, with fuel.
The fuel chosen below exceeds the total number of stack pops any traversal
can perform, so the cut-off is never reached. -/
def dfsVisit (g : Graph) : ℕ → List String → List String → List String
  | 0, _, visited => visited
  | _ + 1, [], visited => visited
  | fuel + 1, x :: stack, visited =>
    if x ∈ visited then dfsVisit g fuel stack visited
    else dfsVisit g fuel (_getNeighbors g x ++ stack) (visited ++ [x])

/-- `_calculateConnectedComponents()`. -/
def _calculateConnectedComponents (g : Graph) : ℕ :=
  let fuel := 1 + (g.vertices.length + 2 * g.edges.length) * (1 + 2 * g.edges.length)
  ((keysOf g.vertices).foldl (fun acc nodeId =>
    if nodeId ∈ acc.1 then acc
    else (dfsVisit g fuel [nodeId] acc.1, acc.2 + 1)) ([], 0)).2

/-- `_calculateGraphDiameter()`: `Math.max(1, Math.floor(Math.log2(N)) + 1)`
(for `N = 0` the JS expression collapses to `1` via `-Infinity`). -/
def _calculateGraphDiameter (g : Graph) : ℕ :=
  if g.vertices.length = 0 then 1 else Nat.log2 g.vertices.length + 1

/-- The `topology_metrics` record of the summary. -/
structure TopologySummary where
  density : ℚ
  average_degree : ℚ
  clustering_coefficient : ℚ
  connected_components : ℕ
  diameter : ℕ
  deriving DecidableEq, Repr

/-- `_getTopologyMetrics()`. -/
def _getTopologyMetrics (g : Graph) : TopologySummary :=
  let nodes := g.vertices.length
  let edges := g.edges.length
  { density := if nodes > 1 then (2 * edges : ℚ) / ((nodes : ℚ) * ((nodes : ℚ) - 1)) else 0
    average_degree := if nodes > 0 then (2 * edges : ℚ) / (nodes : ℚ) else 0
    clustering_coefficient := _calculateClusteringCoefficient g
    connected_components := _calculateConnectedComponents g
    diameter := _calculateGraphDiameter g }

/-- The `confidence_statistics` record. -/
structure ConfStats where
  mean : ℚ
  std : ℚ
  min : ℚ
  max : ℚ
  deriving DecidableEq, Repr

/-- `_getConfidenceStatistics()`.  Every stored confidence is a
`probability_distribution` record, so the per-node value is always the mean
of the four `means` entries; `sqrtFn` models `Math.sqrt`. -/
def _getConfidenceStatistics (sqrtFn : ℚ → ℚ) (g : Graph) : ConfStats :=
  let confidences := g.vertices.map (fun p => p.2.confidence.means.sum / 4)
  match confidences with
  | [] => ⟨0, 0, 0, 0⟩
  | c :: cs =>
    let n : ℚ := (confidences.length : ℚ)
    let mean := confidences.sum / n
    let variance := (confidences.map (fun x => (x - mean) ^ 2)).sum / n
    ⟨mean, sqrtFn variance, cs.foldl min c, cs.foldl max c⟩

/-- The `impact_distribution` record; `average_impact` is a raw JS division
that yields `NaN` on an empty vertex map. -/
structure ImpactDist where
  high_impact : ℕ
  medium_impact : ℕ
  low_impact : ℕ
  average_impact : JSNum
  deriving DecidableEq, Repr

/-- JS `l.reduce((a,b) => a+b, 0) / l.length`: `0/0 = NaN` on an empty list. -/
def averageJS (l : List ℚ) : JSNum :=
  if l.length = 0 then .nan else .num (l.sum / (l.length : ℚ))

/-- `_getImpactDistribution()` — note the unguarded average
(`n.metadata.impact_score || 0.5` makes a zero score falsy). -/
def _getImpactDistribution (g : Graph) : ImpactDist :=
  let impacts := g.vertices.map (fun p =>
    if p.2.metadata.impact_score = 0 then mkRat 1 2 else p.2.metadata.impact_score)
  { high_impact := (impacts.filter (fun i => decide (i ≥ mkRat 7 10))).length
    medium_impact := (impacts.filter (fun i => decide (i ≥ mkRat 4 10 ∧ i < mkRat 7 10))).length
    low_impact := (impacts.filter (fun i => decide (i < mkRat 4 10))).length
    average_impact := averageJS impacts }

/-- `_getLayerDistribution()`. -/
def _getLayerDistribution (g : Graph) : List (String × ℕ) :=
  g.layers.map (fun p => (p.1, p.2.nodes.length))

/-- `_getNodeTypeBreakdown()`. -/
def _getNodeTypeBreakdown (g : Graph) : List (String × ℕ) :=
  g.vertices.foldl (fun acc p =>
    match acc.lookup p.2.type with
    | some n => mapSet acc p.2.type (n + 1)
    | none => mapSet acc p.2.type 1) []

/-- `_countBiasFlags()`. -/
def _countBiasFlags (g : Graph) : ℕ :=
  (g.vertices.map (fun p => p.2.metadata.bias_flags.length)).sum

/-- `_assessFalsifiabilityCoverage()` (a stored criterion is always a
non-empty string, so JS truthiness is `isSome`). -/
def _assessFalsifiabilityCoverage (g : Graph) : ℚ :=
  let hypotheses := g.vertices.filter (fun p => p.2.type = "hypothesis")
  let withCriteria := (hypotheses.filter
    (fun p => p.2.metadata.falsification_criteria.isSome)).length
  if hypotheses.length > 0 then (withCriteria : ℚ) / (hypotheses.length : ℚ) else 1

/-- The `graph_state` sub-record of the summary. -/
structure GraphState where
  vertices_count : ℕ
  edges_count : ℕ
  hyperedges_count : ℕ
  layers_count : ℕ
  node_types : List String
  deriving DecidableEq, Repr

/-- The summary object of `getGraphSummary()` (the static
`active_parameters` listing is descriptive text and omitted). -/
structure Summary where
  graph_state : GraphState
  current_stage : ℕ
  stage_name : String
  layers : List String
  layer_distribution : List (String × ℕ)
  node_type_breakdown : List (String × ℕ)
  topology_metrics : TopologySummary
  confidence_statistics : ConfStats
  impact_distribution : ImpactDist
  bias_flags_count : ℕ
  falsifiability_coverage : ℚ
  interdisciplinary_bridges : ℕ
  knowledge_gaps : ℕ
  deriving DecidableEq, Repr

/-- `getGraphSummary()` — a pure read of the store; never throws. -/
def getGraphSummary (sqrtFn : ℚ → ℚ) (g : Graph) : Summary :=
  { graph_state :=
      { vertices_count := g.vertices.length
        edges_count := g.edges.length
        hyperedges_count := g.hyperedges.length
        layers_count := g.layers.length
        node_types := g.nodeTypes }
    current_stage := g.currentStage
    stage_name := stageNameAt g.currentStage "pre-initialization"
    layers := keysOf g.layers
    layer_distribution := _getLayerDistribution g
    node_type_breakdown := _getNodeTypeBreakdown g
    topology_metrics := _getTopologyMetrics g
    confidence_statistics := _getConfidenceStatistics sqrtFn g
    impact_distribution := _getImpactDistribution g
    bias_flags_count := _countBiasFlags g
    falsifiability_coverage := _assessFalsifiabilityCoverage g
    interdisciplinary_bridges := (g.vertices.filter (fun p => p.2.type = "bridge")).length
    knowledge_gaps := (g.vertices.filter (fun p => p.2.type = "placeholder_gap")).length }

/-! ## Export (`exportGraph`) -/

/-- The structured export document (both the JSON and the YAML outputs are
serializations of this data; serialization itself is not modelled). -/
structure ExportDoc where
  vertices_count : ℕ
  edges_count : ℕ
  hyperedges_count : ℕ
  layers_count : ℕ
  node_types : List String
  vertices : List Node
  edges : List Edge
  summary : Summary
  completed_stages : List String
  format : String
  deriving DecidableEq, Repr

/-- `exportGraph(format = 'json')` — no `try`/`catch`: a non-string format
(`.toLowerCase` TypeError) or an unsupported format name escapes the method
as a raw exception. -/
def exportGraph (sqrtFn : ℚ → ℚ) (g : Graph) (format : Option StrVal) :
    (Except Thrown ExportDoc) × Graph :=
  match format.getD (.str "json") with
  | .nonStr => (.error (.err "format.toLowerCase is not a function"), g)
  | .str s =>
    if jsToLower s = "json" ∨ jsToLower s = "yaml" then
      (.ok { vertices_count := g.vertices.length
             edges_count := g.edges.length
             hyperedges_count := g.hyperedges.length
             layers_count := g.layers.length
             node_types := g.nodeTypes
             vertices := g.vertices.map Prod.snd
             edges := g.edges.map Prod.snd
             summary := getGraphSummary sqrtFn g
             completed_stages := stageNames.take g.currentStage
             format := jsToLower s }, g)
    else (.error (.err ("Unsupported export format: " ++ s)), g)

/-! ## Operation sequences and reachable states -/

/-- One invocation of one of the five operations, with its arguments. -/
inductive Op where
  | initOp (task : TaskInput) (conf : Option ConfInput) (config : ConfigInput)
  | decompOp (customDimensions : Option (List String))
  | genHypOp (dimensionNodeId : StrVal) (hypotheses : HypsInput) (config : HypConfigInput)
  | summaryOp
  | exportOp (format : Option StrVal)

/-- The state transition of one operation (summary and export are pure
reads; their outputs do not affect the state). -/
def applyOp (g : Graph) (op : Op) : Graph :=
  match op with
  | .initOp t c cfg => (initializeOp g t c cfg).2
  | .decompOp dims => (decomposeTask g dims).2
  | .genHypOp d h c => (generateHypotheses g d h c).2
  | .summaryOp => g
  | .exportOp _ => g

/-- A state is reachable when some sequence of operations produces it from a
freshly constructed graph. -/
def Reachable (g : Graph) : Prop :=
  ∃ (eml : Bool) (ops : List Op), g = ops.foldl applyOp (newGraph eml)

/-! ## Helper lemmas -/

theorem strAppend_left_cancel {p a b : String} (h : p ++ a = p ++ b) : a = b := by
  have hd := congrArg String.data h
  simp only [String.data_append] at hd
  exact String.ext (List.append_cancel_left hd)

theorem dimKey_inj {m n : ℕ} (h : "2." ++ natStr m = "2." ++ natStr n) : m = n :=
  natStr_injective (strAppend_left_cancel h)

theorem edgeKey_inj {m n : ℕ} (h : "e_n0_2." ++ natStr m = "e_n0_2." ++ natStr n) : m = n :=
  natStr_injective (strAppend_left_cancel h)

theorem hypKey_inj {d : String} {m n : ℕ}
    (h : "3." ++ d ++ "." ++ natStr m = "3." ++ d ++ "." ++ natStr n) : m = n := by
  have h' : ("3." ++ d ++ ".") ++ natStr m = ("3." ++ d ++ ".") ++ natStr n := by
    simpa [String.append_assoc] using h
  exact natStr_injective (strAppend_left_cancel h')

theorem hypEdgeKey_inj {e : String} {m n : ℕ}
    (h : e ++ natStr m = e ++ natStr n) : m = n :=
  natStr_injective (strAppend_left_cancel h)

/-- The head character of `p ++ s` for a literal nonempty `p` is the head of
`p`. -/
theorem head_of_append (c : Char) (cs : List Char) (p s : String) (hp : p.data = c :: cs) :
    (p ++ s).data.head? = some c := by
  simp [String.data_append, hp]

theorem dimKey_ne_n0 (i : ℕ) : "2." ++ natStr i ≠ "n0" := by
  intro h
  have h2 : ("2." ++ natStr i).data.head? = ("n0" : String).data.head? := by rw [h]
  rw [head_of_append '2' ['.'] "2." (natStr i) rfl] at h2
  simp at h2

theorem hypKey_ne_n0 (d : String) (i : ℕ) : "3." ++ d ++ "." ++ natStr i ≠ "n0" := by
  intro h
  have h2 : ("3." ++ d ++ "." ++ natStr i).data.head? = ("n0" : String).data.head? := by rw [h]
  have h3 : ("3." ++ d ++ "." ++ natStr i).data.head? = some '3' := by
    have ha : "3." ++ d ++ "." ++ natStr i = "3." ++ (d ++ "." ++ natStr i) := by
      simp [String.append_assoc]
    rw [ha, head_of_append '3' ['.'] "3." _ rfl]
  rw [h3] at h2
  simp at h2

theorem hypKey_ne_dimKey (d : String) (m n : ℕ) :
    "3." ++ d ++ "." ++ natStr m ≠ "2." ++ natStr n := by
  intro h
  have h2 : ("3." ++ d ++ "." ++ natStr m).data.head?
      = ("2." ++ natStr n).data.head? := by rw [h]
  have h3 : ("3." ++ d ++ "." ++ natStr m).data.head? = some '3' := by
    have ha : "3." ++ d ++ "." ++ natStr m = "3." ++ (d ++ "." ++ natStr m) := by
      simp [String.append_assoc]
    rw [ha, head_of_append '3' ['.'] "3." _ rfl]
  rw [h3, head_of_append '2' ['.'] "2." (natStr n) rfl] at h2
  simp at h2

theorem mem_mapSet {α : Type} {m : List (String × α)} {k : String} {v : α} {p : String × α}
    (h : p ∈ mapSet m k v) : p ∈ m ∨ p = (k, v) := by
  unfold mapSet at h
  split at h
  · rcases List.mem_map.mp h with ⟨q, hq, hqe⟩
    by_cases hqk : q.1 = k
    · simp [hqk] at hqe
      right; exact hqe.symm
    · simp [hqk] at hqe
      left; exact hqe ▸ hq
  · rcases List.mem_append.mp h with h' | h'
    · left; exact h'
    · right; simpa using h'

theorem lookup_append_left {α : Type} {m₁ : List (String × α)} (m₂ : List (String × α))
    {k : String} {v : α} (h : m₁.lookup k = some v) : (m₁ ++ m₂).lookup k = some v := by
  induction m₁ with
  | nil => simp [List.lookup] at h
  | cons p t ih =>
    simp only [List.cons_append, List.lookup] at h ⊢
    split at h
    · exact h
    · exact ih h

theorem lookup_append_right {α : Type} {m₁ : List (String × α)} (m₂ : List (String × α))
    {k : String} (h : k ∉ keysOf m₁) : (m₁ ++ m₂).lookup k = m₂.lookup k := by
  induction m₁ with
  | nil => simp
  | cons p t ih =>
    simp only [keysOf, List.map_cons, List.mem_cons, not_or] at h
    simp only [List.cons_append, List.lookup,
      show (k == p.1) = false by simp [beq_eq_false_iff_ne]; exact h.1]
    exact ih (by simpa [keysOf] using h.2)

theorem exceptBind_ok {ε α β : Type} (x : α) (f : α → Except ε β) :
    (Except.ok x >>= f : Except ε β) = f x := rfl

theorem exceptBind_err {ε α β : Type} (e : ε) (f : α → Except ε β) :
    (Except.error e >>= f : Except ε β) = Except.error e := rfl

/-- `List.enumFrom` unfolds on `cons`. -/
theorem enumFrom_cons {α : Type} (n : ℕ) (x : α) (xs : List α) :
    List.enumFrom n (x :: xs) = (n, x) :: List.enumFrom (n + 1) xs := rfl

theorem mapError_ok {ε ε' α : Type} (f : ε → ε') (x : α) :
    (Except.ok x : Except ε α).mapError f = .ok x := rfl

theorem mapError_err {ε ε' α : Type} (f : ε → ε') (e : ε) :
    (Except.error e : Except ε α).mapError f = .error (f e) := rfl

/-! ## Concrete fixtures (the scenario of §8 of the specification) -/

/-- A valid task description (50 characters). -/
def goodTask : TaskInput := .str "Investigate the role of skin microbiome in disease"

/-- A freshly constructed graph (multi-layer enabled). -/
def g0 : Graph := newGraph true

/-- The state after one successful `initialize`. -/
def g1 : Graph := (initializeOp g0 goodTask none .nullV).2

/-- The state after `initialize` then `decompose` with the default seven
dimensions. -/
def g2 : Graph := (decomposeTask g1 none).2

/-! ## Shape lemmas for `initializeCore` -/

theorem validateTaskDescription_ok_trim {s : String} {v : String}
    (h : _validateTaskDescription (.str s) = .ok v) : v = jsTrim s := by
  simp only [_validateTaskDescription] at h
  split at h
  · cases h
  · split at h
    · cases h
    · split at h
      · cases h
      · cases h
        rfl

theorem initializeCore_ok_shape {g : Graph} {t : TaskInput} {conf : Option ConfInput}
    {cfg : ConfigInput} {r : InitResult} {g' : Graph}
    (h : initializeCore g t conf cfg = .ok (r, g')) :
    g.currentStage = 0
    ∧ r.success = true
    ∧ g'.currentStage = 1
    ∧ g'.edges = (if g.vertices.length > 0 then [] else g.edges)
    ∧ ∃ vtd vc sc, _validateTaskDescription t = .ok vtd
        ∧ _validateConfidenceArray
            (conf.getD (.arr [.num (mkRat 8 10), .num (mkRat 8 10), .num (mkRat 8 10), .num (mkRat 8 10)]))
            "initial_confidence" = .ok vc
        ∧ _validateConfig cfg = .ok sc
        ∧ g'.vertices = [("n0", mkRootNode vtd vc sc)] := by
  unfold initializeCore at h
  by_cases h0 : g.currentStage ≠ 0
  · rw [if_pos h0] at h
    cases h
  · rw [if_neg h0] at h
    push_neg at h0
    refine ⟨h0, ?_⟩
    rcases h1 : _validateTaskDescription t with e | vtd
    · rw [h1] at h
      cases h
    · rw [h1] at h
      rcases h2 : _validateConfidenceArray
          (conf.getD (.arr [.num (mkRat 8 10), .num (mkRat 8 10), .num (mkRat 8 10), .num (mkRat 8 10)]))
          "initial_confidence" with e | vc
      · simp only [mapError_ok, exceptBind_ok, h2, mapError_err, exceptBind_err] at h
        cases h
      · rcases h3 : _validateConfig cfg with e | sc
        · simp only [mapError_ok, exceptBind_ok, h2, h3, mapError_err, exceptBind_err] at h
          cases h
        · simp only [mapError_ok, exceptBind_ok, h2, h3, pure, Except.pure] at h
          -- the happy path: read off the final record
          by_cases hv : g.vertices.length > 0
          · rw [if_pos hv] at h
            rw [if_pos hv]
            cases h
            refine ⟨rfl, rfl, ?_, vtd, vc, sc, rfl, rfl, rfl, ?_⟩
            · split <;> rfl
            · split <;> rfl
          · rw [if_neg hv] at h
            rw [if_neg hv]
            cases h
            have hempty : g.vertices = [] := by
              rcases hgv : g.vertices with _ | ⟨p, tl⟩
              · rfl
              · rw [hgv] at hv
                simp at hv
            refine ⟨rfl, rfl, ?_, vtd, vc, sc, rfl, rfl, rfl, ?_⟩
            · split <;> rfl
            · rw [hempty]
              split <;> rfl

theorem map_coerceMean_of_bounds (l : List ℚ) (h : ∀ x ∈ l, 0 ≤ x ∧ x ≤ 1) :
    l.map (fun q => coerceMean (.num q)) = l := by
  induction l with
  | nil => rfl
  | cons x xs ih =>
    have hx := h x (by simp)
    have hcx : coerceMean (.num x) = x := by
      simp only [coerceMean]
      rw [if_neg (by push_neg; exact ⟨hx.1, hx.2⟩)]
    simp only [List.map_cons, hcx]
    rw [ih (fun y hy => h y (by simp [hy]))]

theorem validateTaskDescription_str_ok_iff (s : String) :
    (∃ v, _validateTaskDescription (.str s) = .ok v)
      ↔ (10 ≤ (jsTrim s).length ∧ (jsTrim s).length ≤ 1000) := by
  simp only [_validateTaskDescription]
  by_cases h0 : (jsTrim s).length = 0
  · rw [if_pos h0]
    simp
    omega
  · rw [if_neg h0]
    by_cases h10 : (jsTrim s).length < 10
    · rw [if_pos h10]
      simp
      omega
    · rw [if_neg h10]
      by_cases h1000 : (jsTrim s).length > 1000
      · rw [if_pos h1000]
        simp
        omega
      · rw [if_neg h1000]
        simp
        omega

/-- C8: for every 4-element array of numbers in `[0,1]`,
`_createProbabilityDistribution` returns a record whose `means` equal the
input and whose `variances` are pointwise `m * (1 - m)`; an entry that is not
a number in `[0,1]` is replaced by `0.5`, and a non-array input yields the
default `[0.5, 0.5, 0.5, 0.5]` record — no input makes the call fail. -/
theorem wrapConfidence_spec :
    (∀ l : List ℚ, l.length = 4 → (∀ x ∈ l, 0 ≤ x ∧ x ≤ 1) →
      (_createProbabilityDistribution (some (l.map JSNum.num))).means = l
      ∧ ∀ i : ℕ,
          ((_createProbabilityDistribution (some (l.map JSNum.num))).variances)[i]?
            = (((_createProbabilityDistribution (some (l.map JSNum.num))).means)[i]?).map
                (fun m => m * (1 - m)))
    ∧ (∀ (ms : List JSNum) (i : ℕ),
        (ms[i]? = some .nan ∨ ∃ q, ms[i]? = some (.num q) ∧ (q < 0 ∨ q > 1)) →
        ((_createProbabilityDistribution (some ms)).means)[i]? = some (1/2))
    ∧ _createProbabilityDistribution none
        = ⟨[1/2, 1/2, 1/2, 1/2], [1/4, 1/4, 1/4, 1/4], "beta", 1000, 95/100⟩ := by
  refine ⟨?_, ?_, ?_⟩
  · intro l _ hb
    have hm : (_createProbabilityDistribution (some (l.map JSNum.num))).means = l := by
      simp only [_createProbabilityDistribution, Option.getD, List.map_map]
      exact map_coerceMean_of_bounds l hb
    refine ⟨hm, ?_⟩
    intro i
    have hvar : (_createProbabilityDistribution (some (l.map JSNum.num))).variances
        = (_createProbabilityDistribution (some (l.map JSNum.num))).means.map
            (fun m => m * (1 - m)) := rfl
    rw [hvar]
    simp [List.getElem?_map]
  · intro ms i hbad
    have hm : (_createProbabilityDistribution (some ms)).means = ms.map coerceMean := rfl
    rw [hm]
    rcases hbad with hnan | ⟨q, hq, hqr⟩
    · simp [List.getElem?_map, hnan, coerceMean, Rat.mkRat_eq_div]
    · have hcq : coerceMean (.num q) = mkRat 1 2 := by
        simp only [coerceMean]
        rw [if_pos hqr]
      norm_num [List.getElem?_map, hq, hcq, Rat.mkRat_eq_div]
  · simp only [_createProbabilityDistribution, Option.getD, List.map, coerceMean]
    norm_num [Rat.mkRat_eq_div]

/-- Witness for `wrapConfidence_spec` at the concrete vector
`[0.8, 0.7, 0.9, 0.6]` and a concrete invalid entry. -/
theorem wrapConfidence_spec_witness :
    (_createProbabilityDistribution
        (some ([mkRat 4 5, mkRat 7 10, mkRat 9 10, mkRat 3 5].map JSNum.num))).means
      = [mkRat 4 5, mkRat 7 10, mkRat 9 10, mkRat 3 5]
    ∧ ((_createProbabilityDistribution (some [.num (mkRat 4 5), .nan])).means)[1]?
        = some (1/2) :=
  ⟨(wrapConfidence_spec.1 [mkRat 4 5, mkRat 7 10, mkRat 9 10, mkRat 3 5]
      (by decide) (by decide)).1,
   wrapConfidence_spec.2.1 [.num (mkRat 4 5), .nan] 1 (Or.inl rfl)⟩

/-- C10: on a graph with zero vertices, the summary's
`impact_distribution.average_impact` is the unguarded `0/0` (`NaN`), while
`confidence_statistics` is explicitly guarded and returns all zeros. -/
theorem summary_empty_graph_nan :
    ∀ (sqrtFn : ℚ → ℚ) (g : Graph), g.vertices = [] →
      (getGraphSummary sqrtFn g).impact_distribution.average_impact = JSNum.nan
      ∧ (getGraphSummary sqrtFn g).confidence_statistics = ⟨0, 0, 0, 0⟩ := by
  intro f g h
  constructor
  · simp [getGraphSummary, _getImpactDistribution, averageJS, h]
  · simp [getGraphSummary, _getConfidenceStatistics, h]

/-- Witness for `summary_empty_graph_nan` on a freshly constructed graph. -/
theorem summary_empty_graph_nan_witness :
    (getGraphSummary id g0).impact_distribution.average_impact = JSNum.nan
    ∧ (getGraphSummary id g0).confidence_statistics = ⟨0, 0, 0, 0⟩ :=
  summary_empty_graph_nan id g0 rfl

/-- C9: `initialize` accepts a task description iff it is a string whose
trimmed length is between 10 and 1000; a 9-character description fails with
an invalid-parameter error naming `task_description`, a 10-character one
passes, and the trimmed string is stored as the root node's content. -/
theorem taskDescription_validation_spec :
    (∀ inp : TaskInput, (∃ v, _validateTaskDescription inp = .ok v)
        ↔ ∃ s, inp = .str s ∧ 10 ≤ (jsTrim s).length ∧ (jsTrim s).length ≤ 1000)
    ∧ _validateTaskDescription (.str "123456789")
        = .error ⟨"task_description", "a descriptive string with at least 10 characters"⟩
    ∧ (initializeOp g0 (.str "123456789") none .nullV).1
        = .ok { success := false, node_id := none,
                message := "Initialization failed, graph reset to initial state",
                current_stage := 0, stage_name := none,
                error := some "Invalid parameter 'task_description': a descriptive string with at least 10 characters",
                recovery_attempted := true, warnings := [] }
    ∧ (∃ r, (initializeOp g0 (.str "1234567890") none .nullV).1 = .ok r ∧ r.success = true)
    ∧ (∀ g s conf cfg r, (initializeOp g (.str s) conf cfg).1 = .ok r → r.success = true →
        ∃ nd, ((initializeOp g (.str s) conf cfg).2.vertices).lookup "n0" = some nd
          ∧ nd.content = jsTrim s) := by
  have h10 : (initializeOp g0 (.str "1234567890") none .nullV).1
      = .ok { success := true, node_id := some "n0",
              message := "ASR-GoT graph initialized successfully following P1.1 specification",
              current_stage := 1, stage_name := some "initialization",
              error := none, recovery_attempted := false, warnings := [] } := by decide
  refine ⟨?_, by decide, by decide, ⟨_, h10, rfl⟩, ?_⟩
  · intro inp
    cases inp with
    | nullV => simp [_validateTaskDescription]
    | nonString => simp [_validateTaskDescription]
    | str s =>
      rw [validateTaskDescription_str_ok_iff s]
      constructor
      · intro hb
        exact ⟨s, rfl, hb.1, hb.2⟩
      · rintro ⟨s', hs', h10, h1000⟩
        cases hs'
        exact ⟨h10, h1000⟩
  · intro g s conf cfg r hok hsucc
    cases hcore : initializeCore g (.str s) conf cfg with
    | error e =>
      have hop : initializeOp g (.str s) conf cfg
          = (.ok { success := false, node_id := none,
                   message := "Initialization failed, graph reset to initial state",
                   current_stage := (_resetToInitialState g).currentStage, stage_name := none,
                   error := some e.message, recovery_attempted := true, warnings := [] },
             _resetToInitialState g) := by
        unfold initializeOp
        rw [hcore]
      rw [hop] at hok
      simp at hok
      rw [← hok] at hsucc
      cases hsucc
    | ok pr =>
      obtain ⟨r0, g'⟩ := pr
      have hop : initializeOp g (.str s) conf cfg = (.ok r0, g') := by
        unfold initializeOp
        rw [hcore]
      rw [hop] at hok ⊢
      obtain ⟨-, -, -, -, vtd, vc, sc, hvt, -, -, hvert⟩ := initializeCore_ok_shape hcore
      refine ⟨mkRootNode vtd vc sc, ?_, ?_⟩
      · simp [hvert, List.lookup]
      · have hc : (mkRootNode vtd vc sc).content = vtd := rfl
        rw [hc, validateTaskDescription_ok_trim hvt]

/-- Witness for `taskDescription_validation_spec`: the stored root content of
the §8 scenario is the trimmed task description. -/
theorem taskDescription_validation_spec_witness :
    ∃ nd, ((initializeOp g0 goodTask none .nullV).2.vertices).lookup "n0" = some nd
      ∧ nd.content = jsTrim "Investigate the role of skin microbiome in disease" :=
  taskDescription_validation_spec.2.2.2.2 g0
    "Investigate the role of skin microbiome in disease" none .nullV
    { success := true, node_id := some "n0",
      message := "ASR-GoT graph initialized successfully following P1.1 specification",
      current_stage := 1, stage_name := some "initialization",
      error := none, recovery_attempted := false, warnings := [] }
    (by decide) rfl

/-- C1 (amended): a wrong-stage `decomposeTask` throws an error naming the
current and expected stage and mutates nothing; a wrong-stage
`generateHypotheses` returns a structured failure naming both stages and
mutates nothing; a wrong-stage `initialize`, however, fails with such a
message and then resets the graph to the empty initial state (vertex map,
edge map and layer members cleared, cursor set to 0). -/
theorem wrongStage_behavior :
    (∀ g dims, g.currentStage ≠ 1 →
      decomposeTask g dims
        = (.error (.err ("Cannot decompose. Current stage: " ++ natStr g.currentStage
            ++ ", expected: 1")), g))
    ∧ (∀ g d hs c, g.currentStage ≠ 2 →
      generateHypotheses g d hs c
        = (.ok { success := false, hypothesis_nodes := [],
                 message := "Hypothesis generation failed",
                 current_stage := g.currentStage,
                 stage_name := stageNameAt g.currentStage "unknown",
                 errors := none, warnings := none,
                 error := some ("Cannot generate hypotheses. Current stage: "
                   ++ natStr g.currentStage ++ ", expected: 2"),
                 recovery_attempted := false }, g))
    ∧ (∀ g t c cfg, g.currentStage ≠ 0 →
      initializeOp g t c cfg
        = (.ok { success := false, node_id := none,
                 message := "Initialization failed, graph reset to initial state",
                 current_stage := 0, stage_name := none,
                 error := some ("Cannot initialize. Current stage: " ++ natStr g.currentStage
                   ++ ", expected: 0 (before initialization)"),
                 recovery_attempted := true, warnings := [] }, _resetToInitialState g)) := by
  refine ⟨?_, ?_, ?_⟩
  · intro g dims h
    unfold decomposeTask
    rw [if_pos h]
  · intro g d hs c h
    have hcore : generateHypothesesCore g d hs c
        = .error (.err ("Cannot generate hypotheses. Current stage: "
            ++ natStr g.currentStage ++ ", expected: 2")) := by
      unfold generateHypothesesCore
      rw [if_pos h]
    unfold generateHypotheses
    rw [hcore]
    rfl
  · intro g t c cfg h
    have hcore : initializeCore g t c cfg
        = .error (.err ("Cannot initialize. Current stage: " ++ natStr g.currentStage
            ++ ", expected: 0 (before initialization)")) := by
      unfold initializeCore
      rw [if_pos h]
    unfold initializeOp
    rw [hcore]
    rfl

/-- Witness for `wrongStage_behavior` at the once-initialized graph `g1`
(stage cursor 1). -/
theorem wrongStage_behavior_witness :
    decomposeTask g2 none
      = (.error (.err ("Cannot decompose. Current stage: " ++ natStr g2.currentStage
          ++ ", expected: 1")), g2)
    ∧ initializeOp g1 goodTask none .nullV
      = (.ok { success := false, node_id := none,
               message := "Initialization failed, graph reset to initial state",
               current_stage := 0, stage_name := none,
               error := some ("Cannot initialize. Current stage: " ++ natStr g1.currentStage
                 ++ ", expected: 0 (before initialization)"),
               recovery_attempted := true, warnings := [] }, _resetToInitialState g1) :=
  ⟨wrongStage_behavior.1 g2 none (by decide),
   wrongStage_behavior.2.2 g1 goodTask none .nullV (by decide)⟩

/-- C1 counterexample: `initialize` invoked at stage 1 (after a successful
`initialize`) does mutate the store — the vertex map goes from one entry to
empty and the stage cursor from 1 to 0, contradicting "mutates nothing". -/
theorem wrongStage_initialize_mutation :
    g1.currentStage = 1
    ∧ g1.vertices.length = 1
    ∧ (initializeOp g1 goodTask none .nullV).2.vertices = []
    ∧ (initializeOp g1 goodTask none .nullV).2.currentStage = 0 :=
  ⟨by decide, by decide, by decide, by decide⟩

/-- C2 (amended): a second `initialize` on the same instance does not throw
past the boundary, but it is a failure, not a re-entrant re-initialization:
it returns `success = false` with the wrong-stage message and
`recovery_attempted = true`, and the recovery reset leaves the graph empty
(0 vertices, cursor 0).  The clear-prior-state-with-warning branch only runs
when the cursor is 0 while the store is non-empty. -/
theorem reinitialize_second_call :
    (initializeOp g1 goodTask none .nullV).1
      = .ok { success := false, node_id := none,
              message := "Initialization failed, graph reset to initial state",
              current_stage := 0, stage_name := none,
              error := some "Cannot initialize. Current stage: 1, expected: 0 (before initialization)",
              recovery_attempted := true, warnings := [] }
    ∧ (initializeOp g1 goodTask none .nullV).2 = _resetToInitialState g1
    ∧ (initializeOp g1 goodTask none .nullV).2.vertices = []
    ∧ (initializeOp g1 goodTask none .nullV).2.currentStage = 0
    ∧ (∀ g t c cfg r g', g.currentStage = 0 → g.vertices ≠ [] →
        initializeOp g t c cfg = (.ok r, g') → r.success = true →
        ∃ nd, g'.vertices = [("n0", nd)]) := by
  refine ⟨by decide, by decide, by decide, by decide, ?_⟩
  intro g t c cfg r g' _ _ hop hsucc
  cases hcore : initializeCore g t c cfg with
  | error e =>
    unfold initializeOp at hop
    rw [hcore] at hop
    simp at hop
    rw [← hop.1] at hsucc
    cases hsucc
  | ok pr =>
    obtain ⟨r0, g0'⟩ := pr
    unfold initializeOp at hop
    rw [hcore] at hop
    simp at hop
    obtain ⟨-, -, -, -, vtd, vc, sc, -, -, -, hvert⟩ := initializeCore_ok_shape hcore
    exact ⟨mkRootNode vtd vc sc, hop.2 ▸ hvert⟩

/-- C2 counterexample: after one successful `initialize`, a second call does
not behave as the claimed idempotent re-initialization — it reports failure
and leaves 0 vertices and cursor 0 instead of 1 vertex and cursor 1. -/
theorem reinitialize_not_idempotent :
    ∃ r, (initializeOp g1 goodTask none .nullV).1 = .ok r ∧ r.success = false
      ∧ (initializeOp g1 goodTask none .nullV).2.vertices.length ≠ 1
      ∧ (initializeOp g1 goodTask none .nullV).2.currentStage ≠ 1 :=
  ⟨{ success := false, node_id := none,
     message := "Initialization failed, graph reset to initial state",
     current_stage := 0, stage_name := none,
     error := some "Cannot initialize. Current stage: 1, expected: 0 (before initialization)",
     recovery_attempted := true, warnings := [] },
   by decide, by decide, by decide, by decide⟩

/-- C3 (amended): `initialize` and `generateHypotheses` always return a
structured result (never raise past their boundary); `getGraphSummary` is a
total function; but `decomposeTask` raises a raw wrong-stage exception
whenever the cursor is not 1, and `exportGraph` raises a raw exception for
any unsupported or non-string format. -/
theorem operations_boundary_behavior :
    (∀ g t c cfg, ∃ r, (initializeOp g t c cfg).1 = .ok r)
    ∧ (∀ g d hs c, ∃ r, (generateHypotheses g d hs c).1 = .ok r)
    ∧ (∀ g dims, (∃ r, (decomposeTask g dims).1 = .ok r) ↔ g.currentStage = 1)
    ∧ (∀ sqrtFn g s, (∃ d, (exportGraph sqrtFn g (some (.str s))).1 = .ok d)
        ↔ (jsToLower s = "json" ∨ jsToLower s = "yaml"))
    ∧ (∀ sqrtFn g, (exportGraph sqrtFn g (some .nonStr)).1
        = .error (.err "format.toLowerCase is not a function")) := by
  refine ⟨?_, ?_, ?_, ?_, ?_⟩
  · intro g t c cfg
    unfold initializeOp
    cases hcore : initializeCore g t c cfg with
    | error e => exact ⟨_, rfl⟩
    | ok pr =>
      obtain ⟨r0, g'⟩ := pr
      exact ⟨r0, rfl⟩
  · intro g d hs c
    unfold generateHypotheses
    cases hcore : generateHypothesesCore g d hs c with
    | error e => exact ⟨_, rfl⟩
    | ok pr =>
      obtain ⟨r0, g'⟩ := pr
      exact ⟨r0, rfl⟩
  · intro g dims
    unfold decomposeTask
    by_cases h : g.currentStage = 1
    · rw [if_neg (by simp [h])]
      simp [h]
    · rw [if_pos h]
      simp [h]
  · intro sqrtFn g s
    unfold exportGraph
    dsimp only [Option.getD]
    by_cases h : jsToLower s = "json" ∨ jsToLower s = "yaml"
    · rw [if_pos h]
      simp [h]
    · rw [if_neg h]
      simp [h]
  · intro sqrtFn g
    rfl

/-- C3 counterexample: `decomposeTask` called on a fresh graph (stage 0)
propagates a raw exception past its boundary instead of returning a
structured result. -/
theorem decompose_raw_exception :
    (decomposeTask g0 none).1
      = .error (.err "Cannot decompose. Current stage: 0, expected: 1")
    ∧ ∀ r, (decomposeTask g0 none).1 ≠ .ok r := by
  refine ⟨by decide, ?_⟩
  intro r h
  rw [show (decomposeTask g0 none).1
      = .error (.err "Cannot decompose. Current stage: 0, expected: 1") from by decide] at h
  cases h

/-! ## Shape lemmas for `generateHypothesesCore` -/

theorem genHypCore_ok_shape {g : Graph} {d : StrVal} {hs : HypsInput} {c : HypConfigInput}
    {r : HypResult} {g' : Graph} (h : generateHypothesesCore g d hs c = .ok (r, g')) :
    g.currentStage = 2
    ∧ r.success = true
    ∧ r.hypothesis_nodes ≠ []
    ∧ g'.currentStage = 3
    ∧ ∃ did l, _validateDimensionNodeId d (some g.vertices) = .ok did
        ∧ _validateHypothesesArray hs = .ok l
        ∧ r.hypothesis_nodes
            = (((l.take (min (jsOrNat (_validateHypothesisConfig c) 5) 5)).enum).foldl
                (hypStep did ((jsSplitOnDot did).getD 1 "")) (g, [], [])).2.1
        ∧ g' = { (((l.take (min (jsOrNat (_validateHypothesisConfig c) 5) 5)).enum).foldl
                (hypStep did ((jsSplitOnDot did).getD 1 "")) (g, [], [])).1 with
                 currentStage := 3, stageLabel := "hypothesis_planning" } := by
  unfold generateHypothesesCore at h
  by_cases h2 : g.currentStage ≠ 2
  · rw [if_pos h2] at h
    cases h
  · rw [if_neg h2] at h
    push_neg at h2
    refine ⟨h2, ?_⟩
    rcases hd : _validateDimensionNodeId d (some g.vertices) with e | did
    · rw [hd] at h
      cases h
    · rw [hd] at h
      simp only [mapError_ok, exceptBind_ok] at h
      rcases hlook : g.vertices.lookup did with _ | dn
    -- `lookup` is `some` whenever the validator succeeded; both cases unfold
      · rw [hlook] at h
        cases h
      · rw [hlook] at h
        dsimp only at h
        by_cases hty : dn.type ≠ "dimension"
        · rw [if_pos hty] at h
          cases h
        · rw [if_neg hty] at h
          rcases hl : _validateHypothesesArray hs with e | l
          · simp only [mapError_ok, exceptBind_ok, hl, mapError_err, exceptBind_err] at h
            cases h
          · simp only [mapError_ok, exceptBind_ok, hl] at h
            by_cases hparts : (jsSplitOnDot did).length < 2
            · rw [if_pos hparts] at h
              cases h
            · rw [if_neg hparts] at h
              by_cases hzero :
                  ((((l.take (min (jsOrNat (_validateHypothesisConfig c) 5) 5)).enum).foldl
                    (hypStep did ((jsSplitOnDot did).getD 1 "")) (g, [], [])).2.1).length = 0
              · rw [if_pos hzero] at h
                cases h
              · rw [if_neg hzero] at h
                simp only [pure, Except.pure] at h
                cases h
                refine ⟨rfl, ?_, rfl, did, l, rfl, rfl, rfl, rfl⟩
                intro he
                apply hzero
                have hlen := congrArg List.length he
                simpa using hlen

/-- Each item of the per-hypothesis loop adds at most one node id. -/
theorem hypFold_nodes_length (d dnum : String) (items : List (ℕ × HypInput))
    (g : Graph) (nodes errs : List String) :
    ((items.foldl (hypStep d dnum) (g, nodes, errs)).2.1).length
      ≤ nodes.length + items.length := by
  induction items generalizing g nodes errs with
  | nil => simp
  | cons p rest ih =>
    simp only [List.foldl_cons]
    rcases p with ⟨i, hyp⟩
    unfold hypStep
    rcases _validateHypothesis hyp i with e | v
    · simp only []
      calc ((rest.foldl (hypStep d dnum) (g, nodes,
              errs ++ ["Hypothesis " ++ natStr (i + 1) ++ ": " ++ (Thrown.mcp e).message])).2.1).length
          ≤ nodes.length + rest.length := ih _ _ _
        _ ≤ nodes.length + (rest.length + 1) := by omega
    · simp only []
      calc _ ≤ (nodes ++ ["3." ++ dnum ++ "." ++ natStr (i + 1)]).length + rest.length :=
            ih _ _ _
        _ ≤ nodes.length + (rest.length + 1) := by
            simp only [List.length_append, List.length_cons, List.length_nil]
            omega

set_option maxRecDepth 10000

/-- The 5-item batch of §8: item 2 (1-based) is an empty string, the rest are
valid. -/
def fiveItems : HypsInput :=
  .arr [.strH "Hypothesis one", .strH "", .strH "Hypothesis three",
        .strH "Hypothesis four", .strH "Hypothesis five"]

/-- C5: `generateHypotheses` isolates item-level failures.  On the concrete
5-item batch with one empty item it succeeds with exactly 4 hypothesis nodes,
an `errors` list of length 1, and cursor 3; in general, a call that accepts
zero items returns `success = false` without advancing the cursor (the state
is unchanged), and a call that accepts at least one item returns
`success = true` with the cursor set to 3. -/
theorem generateHypotheses_partial_failure :
    ((generateHypotheses g2 (.str "2.1") fiveItems (.obj none)).1
      = .ok { success := true,
              hypothesis_nodes := ["3.1.1", "3.1.3", "3.1.4", "3.1.5"],
              message := "Generated 4 hypotheses following P1.3 specification exactly",
              current_stage := 3, stage_name := "hypothesis_planning",
              errors := some ["Hypothesis 2: Invalid parameter 'hypotheses[1]': a non-empty string or object with content"],
              warnings := some ["1 hypotheses failed to create"],
              error := none, recovery_attempted := false })
    ∧ (generateHypotheses g2 (.str "2.1") fiveItems (.obj none)).2.currentStage = 3
    ∧ (generateHypotheses g2 (.str "2.1") fiveItems (.obj none)).2.vertices.length
        = g2.vertices.length + 4
    ∧ (∀ g d hs c r g', generateHypotheses g d hs c = (.ok r, g') →
        r.hypothesis_nodes = [] →
        r.success = false ∧ g' = g ∧ r.current_stage = g.currentStage)
    ∧ (∀ g d hs c r g', generateHypotheses g d hs c = (.ok r, g') →
        r.hypothesis_nodes ≠ [] → r.success = true ∧ g'.currentStage = 3) := by
  refine ⟨by decide, by decide, by decide, ?_, ?_⟩
  · intro g d hs c r g' hop hempty
    cases hcore : generateHypothesesCore g d hs c with
    | error e =>
      have heq : generateHypotheses g d hs c
          = (.ok { success := false, hypothesis_nodes := [],
                   message := "Hypothesis generation failed",
                   current_stage := g.currentStage,
                   stage_name := stageNameAt g.currentStage "unknown",
                   errors := none, warnings := none, error := some e.message,
                   recovery_attempted := false }, g) := by
        unfold generateHypotheses
        rw [hcore]
      rw [heq] at hop
      injection hop with h1 h2
      injection h1 with h1
      exact ⟨by rw [← h1], h2.symm, by rw [← h1]⟩
    | ok pr =>
      obtain ⟨r0, g0'⟩ := pr
      have heq : generateHypotheses g d hs c = (.ok r0, g0') := by
        unfold generateHypotheses
        rw [hcore]
      rw [heq] at hop
      injection hop with h1 h2
      injection h1 with h1
      obtain ⟨-, -, hne, -, -⟩ := genHypCore_ok_shape hcore
      exact absurd (h1 ▸ hempty) hne
  · intro g d hs c r g' hop hne
    cases hcore : generateHypothesesCore g d hs c with
    | error e =>
      have heq : generateHypotheses g d hs c
          = (.ok { success := false, hypothesis_nodes := [],
                   message := "Hypothesis generation failed",
                   current_stage := g.currentStage,
                   stage_name := stageNameAt g.currentStage "unknown",
                   errors := none, warnings := none, error := some e.message,
                   recovery_attempted := false }, g) := by
        unfold generateHypotheses
        rw [hcore]
      rw [heq] at hop
      injection hop with h1 h2
      injection h1 with h1
      exact absurd (by rw [← h1]) hne
    | ok pr =>
      obtain ⟨r0, g0'⟩ := pr
      have heq : generateHypotheses g d hs c = (.ok r0, g0') := by
        unfold generateHypotheses
        rw [hcore]
      rw [heq] at hop
      injection hop with h1 h2
      injection h1 with h1
      obtain ⟨-, hsucc, -, hst, -⟩ := genHypCore_ok_shape hcore
      exact ⟨h1 ▸ hsucc, h2 ▸ hst⟩

/-- Witness for `generateHypotheses_partial_failure`: the zero-accepted case
on a concrete all-invalid batch. -/
theorem generateHypotheses_partial_failure_witness :
    ({ success := false, hypothesis_nodes := [],
       message := "Hypothesis generation failed",
       current_stage := 2, stage_name := "decomposition",
       errors := none, warnings := none,
       error := some "Failed to create any hypotheses. Errors: Hypothesis 1: Invalid parameter 'hypotheses[0]': a non-empty string or object with content; Hypothesis 2: Invalid parameter 'hypotheses[1]': a non-empty string or object with content; Hypothesis 3: Invalid parameter 'hypotheses[2]': a non-empty string or object with content",
       recovery_attempted := false } : HypResult).success = false
    ∧ (generateHypotheses g2 (.str "2.1") (.arr [.strH "", .strH " ", .strH ""])
        (.obj none)).2 = g2
    ∧ ({ success := false, hypothesis_nodes := [],
         message := "Hypothesis generation failed",
         current_stage := 2, stage_name := "decomposition",
         errors := none, warnings := none,
         error := some "Failed to create any hypotheses. Errors: Hypothesis 1: Invalid parameter 'hypotheses[0]': a non-empty string or object with content; Hypothesis 2: Invalid parameter 'hypotheses[1]': a non-empty string or object with content; Hypothesis 3: Invalid parameter 'hypotheses[2]': a non-empty string or object with content",
         recovery_attempted := false } : HypResult).current_stage = g2.currentStage :=
  generateHypotheses_partial_failure.2.2.2.1 g2 (.str "2.1")
    (.arr [.strH "", .strH " ", .strH ""]) (.obj none) _ g2 rfl rfl

theorem one_le_floorToNat {q : ℚ} (h : 1 ≤ q) : 1 ≤ floorToNat q := by
  have h1 : (1 : ℤ) ≤ ⌊q⌋ := Int.le_floor.mpr (by exact_mod_cast h)
  rw [Rat.floor_def] at h1
  unfold floorToNat
  omega

theorem floorToNat_le_five {q : ℚ} (h : q ≤ 5) : floorToNat q ≤ 5 := by
  have h1 : ⌊q⌋ ≤ ⌊(5 : ℚ)⌋ := Int.floor_mono h
  have h2 : ⌊(5 : ℚ)⌋ = 5 := by norm_num
  rw [Rat.floor_def] at h1
  unfold floorToNat
  omega

/-- C6 (amended): at stage 2 with a valid dimension node, a `hypotheses`
argument that is not an array, or an array whose length is outside `[3, 5]`,
is rejected outright — before and independently of per-item validation —
with no mutation; every call creates at most 5 hypothesis nodes; and when
`config.max_hypotheses` is a number `q` with `1 ≤ q ≤ 5`, at most `⌊q⌋`
nodes are created.  (The original bound "`min(config.max_hypotheses, 5)`"
fails for fractional `q < 1`: the floored cap `0` is falsy in JS and falls
back to 5 — see the counterexample.) -/
theorem hypotheses_batch_validation :
    (∀ g d c (l : List HypInput) did, g.currentStage = 2 →
        _validateDimensionNodeId d (some g.vertices) = .ok did →
        (∃ nd, g.vertices.lookup did = some nd ∧ nd.type = "dimension") →
        (l.length < 3 ∨ l.length > 5) →
        generateHypotheses g d (.arr l) c
          = (.ok { success := false, hypothesis_nodes := [],
                   message := "Hypothesis generation failed",
                   current_stage := g.currentStage,
                   stage_name := stageNameAt g.currentStage "unknown",
                   errors := none, warnings := none,
                   error := some ("Invalid parameter 'hypotheses': "
                     ++ (if l.length < 3 then
                           "an array with at least 3 hypotheses (P1.3 specification)"
                         else "an array with maximum 5 hypotheses (P1.3 specification)")),
                   recovery_attempted := false }, g))
    ∧ (∀ g d c did, g.currentStage = 2 →
        _validateDimensionNodeId d (some g.vertices) = .ok did →
        (∃ nd, g.vertices.lookup did = some nd ∧ nd.type = "dimension") →
        generateHypotheses g d .notArr c
          = (.ok { success := false, hypothesis_nodes := [],
                   message := "Hypothesis generation failed",
                   current_stage := g.currentStage,
                   stage_name := stageNameAt g.currentStage "unknown",
                   errors := none, warnings := none,
                   error := some "Invalid parameter 'hypotheses': an array of hypothesis objects or strings",
                   recovery_attempted := false }, g))
    ∧ (∀ g d hs c r g', generateHypotheses g d hs c = (.ok r, g') →
        r.hypothesis_nodes.length ≤ 5)
    ∧ (∀ g d hs q r g',
        generateHypotheses g d hs (.obj (some (.num q))) = (.ok r, g') →
        1 ≤ q → q ≤ 5 → r.hypothesis_nodes.length ≤ floorToNat q) := by
  refine ⟨?_, ?_, ?_, ?_⟩
  · intro g d c l did hst hd hnd hlen
    obtain ⟨nd, hlook, hty⟩ := hnd
    have harr : _validateHypothesesArray (.arr l)
        = .error ⟨"hypotheses",
            if l.length < 3 then "an array with at least 3 hypotheses (P1.3 specification)"
            else "an array with maximum 5 hypotheses (P1.3 specification)"⟩ := by
      unfold _validateHypothesesArray
      dsimp only
      rcases hlen with h3 | h5
      · rw [if_pos h3, if_pos h3]
      · rw [if_neg (by omega), if_pos h5, if_neg (by omega)]
    have hcore : generateHypothesesCore g d (.arr l) c
        = .error (.mcp ⟨"hypotheses",
            if l.length < 3 then "an array with at least 3 hypotheses (P1.3 specification)"
            else "an array with maximum 5 hypotheses (P1.3 specification)"⟩) := by
      unfold generateHypothesesCore
      rw [if_neg (by omega), hd]
      simp only [mapError_ok, exceptBind_ok]
      rw [hlook]
      dsimp only
      rw [if_neg (by simp [hty]), harr]
      simp only [mapError_err, exceptBind_err]
    unfold generateHypotheses
    rw [hcore]
    rfl
  · intro g d c did hst hd hnd
    obtain ⟨nd, hlook, hty⟩ := hnd
    have hcore : generateHypothesesCore g d .notArr c
        = .error (.mcp ⟨"hypotheses", "an array of hypothesis objects or strings"⟩) := by
      unfold generateHypothesesCore
      rw [if_neg (by omega), hd]
      simp only [mapError_ok, exceptBind_ok]
      rw [hlook]
      dsimp only
      rw [if_neg (by simp [hty])]
      rfl
    unfold generateHypotheses
    rw [hcore]
    rfl
  · intro g d hs c r g' hop
    cases hcore : generateHypothesesCore g d hs c with
    | error e =>
      have heq : generateHypotheses g d hs c
          = (.ok { success := false, hypothesis_nodes := [],
                   message := "Hypothesis generation failed",
                   current_stage := g.currentStage,
                   stage_name := stageNameAt g.currentStage "unknown",
                   errors := none, warnings := none, error := some e.message,
                   recovery_attempted := false }, g) := by
        unfold generateHypotheses
        rw [hcore]
      rw [heq] at hop
      injection hop with h1 h2
      injection h1 with h1
      rw [← h1]
      simp
    | ok pr =>
      obtain ⟨r0, g0'⟩ := pr
      have heq : generateHypotheses g d hs c = (.ok r0, g0') := by
        unfold generateHypotheses
        rw [hcore]
      rw [heq] at hop
      injection hop with h1 h2
      injection h1 with h1
      obtain ⟨-, -, -, -, did, l, -, -, hnodes, -⟩ := genHypCore_ok_shape hcore
      rw [← h1, hnodes]
      calc (((l.take (min (jsOrNat (_validateHypothesisConfig c) 5) 5)).enum).foldl
              (hypStep did ((jsSplitOnDot did).getD 1 "")) (g, [], [])).2.1.length
          ≤ [].length + ((l.take (min (jsOrNat (_validateHypothesisConfig c) 5) 5)).enum).length :=
            hypFold_nodes_length _ _ _ _ _ _
        _ ≤ min (jsOrNat (_validateHypothesisConfig c) 5) 5 := by
            simp [List.enum_length, List.length_take]
        _ ≤ 5 := Nat.min_le_right _ _
  · intro g d hs q r g' hop h1q hq5
    have hcfg : _validateHypothesisConfig (.obj (some (.num q))) = some (floorToNat q) := by
      unfold _validateHypothesisConfig
      dsimp only
      rw [if_pos ⟨by linarith, hq5⟩]
    have hfl : 1 ≤ floorToNat q := one_le_floorToNat h1q
    have hfu : floorToNat q ≤ 5 := floorToNat_le_five hq5
    have hmax : min (jsOrNat (_validateHypothesisConfig (.obj (some (.num q)))) 5) 5
        = floorToNat q := by
      rw [hcfg]
      cases hm : floorToNat q with
      | zero => omega
      | succ m =>
        have : jsOrNat (some (m + 1)) 5 = m + 1 := rfl
        rw [this]
        rw [hm] at hfu
        omega
    cases hcore : generateHypothesesCore g d hs (.obj (some (.num q))) with
    | error e =>
      have heq : generateHypotheses g d hs (.obj (some (.num q)))
          = (.ok { success := false, hypothesis_nodes := [],
                   message := "Hypothesis generation failed",
                   current_stage := g.currentStage,
                   stage_name := stageNameAt g.currentStage "unknown",
                   errors := none, warnings := none, error := some e.message,
                   recovery_attempted := false }, g) := by
        unfold generateHypotheses
        rw [hcore]
      rw [heq] at hop
      injection hop with hr hg
      injection hr with hr
      rw [← hr]
      simp
    | ok pr =>
      obtain ⟨r0, g0'⟩ := pr
      have heq : generateHypotheses g d hs (.obj (some (.num q))) = (.ok r0, g0') := by
        unfold generateHypotheses
        rw [hcore]
      rw [heq] at hop
      injection hop with hr hg
      injection hr with hr
      obtain ⟨-, -, -, -, did, l, -, -, hnodes, -⟩ := genHypCore_ok_shape hcore
      rw [← hr, hnodes, hmax]
      calc (((l.take (floorToNat q)).enum).foldl
              (hypStep did ((jsSplitOnDot did).getD 1 "")) (g, [], [])).2.1.length
          ≤ [].length + ((l.take (floorToNat q)).enum).length :=
            hypFold_nodes_length _ _ _ _ _ _
        _ ≤ floorToNat q := by
            simp [List.enum_length, List.length_take]

/-- A 3-item valid batch, used by the `max_hypotheses` counterexample. -/
def threeItems : HypsInput :=
  .arr [.strH "Hypothesis one", .strH "Hypothesis two", .strH "Hypothesis three"]

/-- Witness for `hypotheses_batch_validation`: at the decomposed graph `g2`,
a 2-item batch of valid items fails outright, and so does a non-array
`hypotheses` argument — both mutating nothing. -/
theorem hypotheses_batch_validation_witness :
    (generateHypotheses g2 (.str "2.1") (.arr [.strH "Hyp a text", .strH "Hyp b text"]) (.obj none)
      = (.ok { success := false, hypothesis_nodes := [],
               message := "Hypothesis generation failed",
               current_stage := g2.currentStage,
               stage_name := stageNameAt g2.currentStage "unknown",
               errors := none, warnings := none,
               error := some ("Invalid parameter 'hypotheses': "
                 ++ (if ([HypInput.strH "Hyp a text", .strH "Hyp b text"].length < 3) then
                       "an array with at least 3 hypotheses (P1.3 specification)"
                     else "an array with maximum 5 hypotheses (P1.3 specification)")),
               recovery_attempted := false }, g2))
    ∧ (generateHypotheses g2 (.str "2.1") .notArr (.obj none)
      = (.ok { success := false, hypothesis_nodes := [],
               message := "Hypothesis generation failed",
               current_stage := g2.currentStage,
               stage_name := stageNameAt g2.currentStage "unknown",
               errors := none, warnings := none,
               error := some "Invalid parameter 'hypotheses': an array of hypothesis objects or strings",
               recovery_attempted := false }, g2)) :=
  ⟨hypotheses_batch_validation.1 g2 (.str "2.1") (.obj none)
    [.strH "Hyp a text", .strH "Hyp b text"] "2.1" (by decide) (by decide)
    ⟨_, rfl, rfl⟩
    (by decide),
   hypotheses_batch_validation.2.1 g2 (.str "2.1") (.obj none) "2.1"
    (by decide) (by decide) ⟨_, rfl, rfl⟩⟩

/-- C6 counterexample: with `config.max_hypotheses = 0.5` and 3 valid items,
the code creates 3 hypothesis nodes, more than the claimed bound
`min(config.max_hypotheses, 5) = 0.5`. -/
theorem hypotheses_cap_counterexample :
    ∃ r, (generateHypotheses g2 (.str "2.1") threeItems
        (.obj (some (.num (mkRat 1 2))))).1 = .ok r
      ∧ r.hypothesis_nodes.length = 3
      ∧ ¬((r.hypothesis_nodes.length : ℚ) ≤ min (mkRat 1 2) 5) :=
  ⟨{ success := true,
     hypothesis_nodes := ["3.1.1", "3.1.2", "3.1.3"],
     message := "Generated 3 hypotheses following P1.3 specification exactly",
     current_stage := 3, stage_name := "hypothesis_planning",
     errors := none, warnings := none, error := none, recovery_attempted := false },
   by decide, by decide, by decide⟩

/-! ## Characterization of the decomposition loop -/

theorem mem_enumFrom_fst_ge {α : Type} (l : List α) (n : ℕ) :
    ∀ p ∈ l.enumFrom n, n ≤ p.1 := by
  induction l generalizing n with
  | nil => simp [List.enumFrom]
  | cons x xs ih =>
    intro p hp
    rw [enumFrom_cons] at hp
    rcases List.mem_cons.mp hp with h | h
    · rw [h]
    · exact le_trans (by omega) (ih (n + 1) p h)

theorem decompFold_characterization (dims : List String) (i0 : ℕ) (g : Graph)
    (ids : List String)
    (hv : ∀ j, ("2." ++ natStr (i0 + j + 1)) ∉ keysOf g.vertices)
    (he : ∀ j, ("e_n0_2." ++ natStr (i0 + j + 1)) ∉ keysOf g.edges) :
    ((dims.enumFrom i0).foldl decompStep (g, ids)).1.vertices
        = g.vertices ++ (dims.enumFrom i0).map
            (fun p => ("2." ++ natStr (p.1 + 1), mkDimensionNode p.2 p.1))
    ∧ ((dims.enumFrom i0).foldl decompStep (g, ids)).1.edges
        = g.edges ++ (dims.enumFrom i0).map
            (fun p => ("e_n0_2." ++ natStr (p.1 + 1), mkDecompositionEdge p.1))
    ∧ ((dims.enumFrom i0).foldl decompStep (g, ids)).1.currentStage = g.currentStage
    ∧ ((dims.enumFrom i0).foldl decompStep (g, ids)).2
        = ids ++ (dims.enumFrom i0).map (fun p => "2." ++ natStr (p.1 + 1)) := by
  induction dims generalizing i0 g ids with
  | nil => simp [List.enumFrom]
  | cons d ds ih =>
    rw [enumFrom_cons]
    simp only [List.foldl_cons, List.map_cons]
    have hkv : ("2." ++ natStr (i0 + 1)) ∉ keysOf g.vertices := by
      have h := hv 0
      simpa using h
    have hke : ("e_n0_2." ++ natStr (i0 + 1)) ∉ keysOf g.edges := by
      have h := he 0
      simpa using h
    have hstep : decompStep (g, ids) (i0, d)
        = ({ g with
              vertices := g.vertices ++ [("2." ++ natStr (i0 + 1), mkDimensionNode d i0)],
              edges := g.edges ++ [("e_n0_2." ++ natStr (i0 + 1), mkDecompositionEdge i0)],
              nodeTypes := addUniq g.nodeTypes "dimension",
              layers := addNodeToLayer g.layers "base" ("2." ++ natStr (i0 + 1)) },
           ids ++ ["2." ++ natStr (i0 + 1)]) := by
      unfold decompStep
      dsimp only
      rw [mapSet_of_not_mem _ _ _ hkv, mapSet_of_not_mem _ _ _ hke]
    rw [hstep]
    have harith : ∀ j, i0 + 1 + j + 1 = i0 + (j + 1) + 1 := by omega
    have hv' : ∀ j, ("2." ++ natStr (i0 + 1 + j + 1))
        ∉ keysOf (g.vertices ++ [("2." ++ natStr (i0 + 1), mkDimensionNode d i0)]) := by
      intro j hmem
      rw [keysOf_append] at hmem
      rcases List.mem_append.mp hmem with h | h
      · rw [harith j] at h
        exact hv (j + 1) h
      · simp only [keysOf, List.map_cons, List.map_nil, List.mem_singleton] at h
        have := dimKey_inj h
        omega
    have he' : ∀ j, ("e_n0_2." ++ natStr (i0 + 1 + j + 1))
        ∉ keysOf (g.edges ++ [("e_n0_2." ++ natStr (i0 + 1), mkDecompositionEdge i0)]) := by
      intro j hmem
      rw [keysOf_append] at hmem
      rcases List.mem_append.mp hmem with h | h
      · rw [harith j] at h
        exact he (j + 1) h
      · simp only [keysOf, List.map_cons, List.map_nil, List.mem_singleton] at h
        have := edgeKey_inj h
        omega
    obtain ⟨ihv, ihe, ihs, ihids⟩ := ih (i0 + 1)
      { g with
        vertices := g.vertices ++ [("2." ++ natStr (i0 + 1), mkDimensionNode d i0)],
        edges := g.edges ++ [("e_n0_2." ++ natStr (i0 + 1), mkDecompositionEdge i0)],
        nodeTypes := addUniq g.nodeTypes "dimension",
        layers := addNodeToLayer g.layers "base" ("2." ++ natStr (i0 + 1)) }
      (ids ++ ["2." ++ natStr (i0 + 1)]) (fun j => hv' j) (fun j => he' j)
    refine ⟨?_, ?_, ?_, ?_⟩
    · rw [ihv]
      simp
    · rw [ihe]
      simp
    · rw [ihs]
    · rw [ihids]
      simp

theorem lookup_enumFrom_map {β : Type} (key : ℕ → String)
    (hinj : ∀ m n, key m = key n → m = n) (f : ℕ → String → β)
    (dims : List String) (i0 i : ℕ) (hi : i < dims.length) :
    ((dims.enumFrom i0).map (fun p => (key p.1, f p.1 p.2))).lookup (key (i0 + i))
      = some (f (i0 + i) (dims.get ⟨i, hi⟩)) := by
  induction dims generalizing i0 i with
  | nil => simp at hi
  | cons d ds ih =>
    rw [enumFrom_cons]
    simp only [List.map_cons]
    cases i with
    | zero =>
      simp [List.lookup]
    | succ j =>
      have hne : (key (i0 + (j + 1)) == key i0) = false := by
        simp only [beq_eq_false_iff_ne, ne_eq]
        intro hc
        have := hinj _ _ hc
        omega
      simp only [List.lookup, hne]
      have harith : i0 + (j + 1) = (i0 + 1) + j := by omega
      rw [harith, ih (i0 + 1) j (by simpa using hi)]
      rfl

theorem nodup_enumFrom_keys {β : Type} (key : ℕ → String)
    (hinj : ∀ m n, key m = key n → m = n) (f : ℕ → String → β)
    (l : List String) (i0 : ℕ) :
    (keysOf ((l.enumFrom i0).map (fun p => (key p.1, f p.1 p.2)))).Nodup := by
  induction l generalizing i0 with
  | nil => simp [List.enumFrom, keysOf]
  | cons d ds ih =>
    rw [enumFrom_cons]
    simp only [keysOf, List.map_cons, List.nodup_cons]
    constructor
    · intro hmem
      rcases List.mem_map.mp hmem with ⟨p, hp, hpe⟩
      rcases List.mem_map.mp hp with ⟨q, hq, hqe⟩
      have hge := mem_enumFrom_fst_ge ds (i0 + 1) q hq
      rw [← hqe] at hpe
      have := hinj _ _ hpe
      omega
    · have h := ih (i0 + 1)
      simpa [keysOf] using h

/-! ## Membership and key lemmas for the hypothesis loop -/

theorem decompFold_mem (l : List (ℕ × String)) (g : Graph) (ids : List String) :
    ∀ p ∈ ((l.foldl decompStep (g, ids)).1).vertices,
      p ∈ g.vertices ∨ ∃ i d, p = ("2." ++ natStr (i + 1), mkDimensionNode d i) := by
  induction l generalizing g ids with
  | nil => exact fun p hp => Or.inl hp
  | cons q rest ih =>
    intro p hp
    simp only [List.foldl_cons] at hp
    unfold decompStep at hp
    dsimp only at hp
    rcases ih _ _ p hp with h | h
    · rcases mem_mapSet h with h' | h'
      · exact Or.inl h'
      · exact Or.inr ⟨q.1, q.2, h'⟩
    · exact Or.inr h

theorem hypFold_mem (l : List (ℕ × HypInput)) (d dnum : String) (g : Graph)
    (nodes errs : List String) :
    ∀ p ∈ ((l.foldl (hypStep d dnum) (g, nodes, errs)).1).vertices,
      p ∈ g.vertices
        ∨ ∃ i v, p = ("3." ++ dnum ++ "." ++ natStr (i + 1), mkHypothesisNode dnum i v) := by
  induction l generalizing g nodes errs with
  | nil => exact fun p hp => Or.inl hp
  | cons q rest ih =>
    intro p hp
    simp only [List.foldl_cons] at hp
    unfold hypStep at hp
    rcases hval : _validateHypothesis q.2 q.1 with e | v
    · rw [hval] at hp
      dsimp only at hp
      rcases ih _ _ _ p hp with h | h
      · exact Or.inl h
      · exact Or.inr h
    · rw [hval] at hp
      dsimp only at hp
      rcases ih _ _ _ p hp with h | h
      · rcases mem_mapSet h with h' | h'
        · exact Or.inl h'
        · exact Or.inr ⟨q.1, v, h'⟩
      · exact Or.inr h

/-- The per-item loop of `generateHypotheses` preserves key discipline: new
keys have the `3.<dim>.<k>` shape and never collide. -/
theorem hypFold_keys (d dnum : String) (items : List HypInput) (i0 : ℕ) (g : Graph)
    (nodes errs : List String)
    (hkeys : ∀ k ∈ keysOf g.vertices, k = "n0" ∨ (∃ i, k = "2." ++ natStr i)
        ∨ (∃ j, j < i0 ∧ k = "3." ++ dnum ++ "." ++ natStr (j + 1)))
    (hnodup : (keysOf g.vertices).Nodup)
    (hroot : ∀ p ∈ g.vertices, p.2.type = "root" → p.1 = "n0") :
    (∀ k ∈ keysOf (((items.enumFrom i0).foldl (hypStep d dnum) (g, nodes, errs)).1).vertices,
        k = "n0" ∨ (∃ i, k = "2." ++ natStr i)
        ∨ (∃ j, j < i0 + items.length ∧ k = "3." ++ dnum ++ "." ++ natStr (j + 1)))
    ∧ (keysOf (((items.enumFrom i0).foldl (hypStep d dnum) (g, nodes, errs)).1).vertices).Nodup
    ∧ (∀ p ∈ (((items.enumFrom i0).foldl (hypStep d dnum) (g, nodes, errs)).1).vertices,
        p.2.type = "root" → p.1 = "n0")
    ∧ (((items.enumFrom i0).foldl (hypStep d dnum) (g, nodes, errs)).1).currentStage
        = g.currentStage := by
  induction items generalizing i0 g nodes errs with
  | nil =>
    refine ⟨?_, hnodup, hroot, rfl⟩
    intro k hk
    rcases hkeys k hk with h | h | ⟨j, hj, hk'⟩
    · exact Or.inl h
    · exact Or.inr (Or.inl h)
    · exact Or.inr (Or.inr ⟨j, by omega, hk'⟩)
  | cons item rest ih =>
    rw [enumFrom_cons]
    simp only [List.foldl_cons, List.length_cons]
    unfold hypStep
    dsimp only
    rcases hval : _validateHypothesis item i0 with e | v
    · dsimp only
      have := ih (i0 + 1) g nodes
        (errs ++ ["Hypothesis " ++ natStr (i0 + 1) ++ ": " ++ (Thrown.mcp e).message])
        (fun k hk => by
          rcases hkeys k hk with h | h | ⟨j, hj, hk'⟩
          · exact Or.inl h
          · exact Or.inr (Or.inl h)
          · exact Or.inr (Or.inr ⟨j, by omega, hk'⟩))
        hnodup hroot
      refine ⟨?_, this.2.1, this.2.2.1, this.2.2.2⟩
      intro k hk
      rcases this.1 k hk with h | h | ⟨j, hj, hk'⟩
      · exact Or.inl h
      · exact Or.inr (Or.inl h)
      · exact Or.inr (Or.inr ⟨j, by omega, hk'⟩)
    · dsimp only
      have hfresh : ("3." ++ dnum ++ "." ++ natStr (i0 + 1)) ∉ keysOf g.vertices := by
        intro hmem
        rcases hkeys _ hmem with h | ⟨i, h⟩ | ⟨j, hj, h⟩
        · exact hypKey_ne_n0 dnum (i0 + 1) h
        · exact hypKey_ne_dimKey dnum (i0 + 1) i h
        · have := hypKey_inj h
          omega
      have hmapset := mapSet_of_not_mem g.vertices ("3." ++ dnum ++ "." ++ natStr (i0 + 1))
        (mkHypothesisNode dnum i0 v) hfresh
      rw [hmapset]
      have := ih (i0 + 1)
        { g with
          vertices := g.vertices ++ [("3." ++ dnum ++ "." ++ natStr (i0 + 1),
            mkHypothesisNode dnum i0 v)],
          nodeTypes := addUniq g.nodeTypes "hypothesis",
          layers := if (g.layers.lookup "theoretical").isSome then
              addNodeToLayer g.layers "theoretical" ("3." ++ dnum ++ "." ++ natStr (i0 + 1))
            else addNodeToLayer g.layers "base" ("3." ++ dnum ++ "." ++ natStr (i0 + 1)),
          edges := mapSet g.edges
            ("e_" ++ d ++ "_" ++ ("3." ++ dnum ++ "." ++ natStr (i0 + 1)))
            { edge_id := "e_" ++ d ++ "_" ++ ("3." ++ dnum ++ "." ++ natStr (i0 + 1)),
              source := d, target := "3." ++ dnum ++ "." ++ natStr (i0 + 1),
              metadata := _createEdgeMetadata
                { edge_type := some "Hypothesis",
                  confidence := some (wrapDist [mkRat 8 10, mkRat 8 10, mkRat 8 10, mkRat 8 10]) } } }
        (nodes ++ ["3." ++ dnum ++ "." ++ natStr (i0 + 1)]) errs
        (fun k hk => by
          rw [keysOf_append] at hk
          rcases List.mem_append.mp hk with h | h
          · rcases hkeys k h with h' | h' | ⟨j, hj, hk'⟩
            · exact Or.inl h'
            · exact Or.inr (Or.inl h')
            · exact Or.inr (Or.inr ⟨j, by omega, hk'⟩)
          · simp only [keysOf, List.map_cons, List.map_nil, List.mem_singleton] at h
            exact Or.inr (Or.inr ⟨i0, by omega, h⟩))
        (by
          rw [keysOf_append]
          rw [List.nodup_append]
          refine ⟨hnodup, by simp [keysOf], ?_⟩
          intro k hk hk2
          simp only [keysOf, List.map_cons, List.map_nil, List.mem_singleton] at hk2
          rw [hk2] at hk
          exact hfresh hk)
        (fun p hp hr => by
          rcases List.mem_append.mp hp with h | h
          · exact hroot p h hr
          · simp only [List.mem_singleton] at h
            have hty : p.2.type = "hypothesis" := by rw [h]; rfl
            rw [hty] at hr
            exact absurd hr (by decide))
      refine ⟨?_, this.2.1, this.2.2.1, this.2.2.2⟩
      intro k hk
      rcases this.1 k hk with h | h | ⟨j, hj, hk'⟩
      · exact Or.inl h
      · exact Or.inr (Or.inl h)
      · exact Or.inr (Or.inr ⟨j, by omega, hk'⟩)

/-! ## The reachable-state invariant -/

theorem enum_eq_enumFrom {α : Type} (l : List α) : l.enum = l.enumFrom 0 := rfl

/-- Structural invariant of every reachable graph state: only `n0` carries
type `root`, vertex keys never collide, and each stage determines the shape
of the vertex map. -/
def Inv (g : Graph) : Prop :=
  (∀ p ∈ g.vertices, p.2.type = "root" → p.1 = "n0")
  ∧ (keysOf g.vertices).Nodup
  ∧ (g.currentStage = 0 → g.vertices = [] ∧ g.edges = [])
  ∧ (g.currentStage = 1 →
      (∃ nd, g.vertices = [("n0", nd)] ∧ nd.type = "root") ∧ g.edges = [])
  ∧ (g.currentStage = 2 →
      ∀ k ∈ keysOf g.vertices, k = "n0" ∨ ∃ i, k = "2." ++ natStr i)

theorem inv_newGraph (eml : Bool) : Inv (newGraph eml) := by
  refine ⟨?_, ?_, fun _ => ⟨rfl, rfl⟩, ?_, ?_⟩
  · intro p hp _
    rw [show (newGraph eml).vertices = ([] : List (String × Node)) from rfl] at hp
    exact absurd hp (List.not_mem_nil p)
  · rw [show keysOf (newGraph eml).vertices = ([] : List String) from rfl]
    exact List.nodup_nil
  · intro hc
    rw [show (newGraph eml).currentStage = 0 from rfl] at hc
    exact absurd hc (by decide)
  · intro hc
    rw [show (newGraph eml).currentStage = 0 from rfl] at hc
    exact absurd hc (by decide)

theorem inv_reset (g : Graph) : Inv (_resetToInitialState g) := by
  refine ⟨?_, ?_, fun _ => ⟨rfl, rfl⟩, ?_, ?_⟩
  · intro p hp _
    rw [show (_resetToInitialState g).vertices = ([] : List (String × Node)) from rfl] at hp
    exact absurd hp (List.not_mem_nil p)
  · rw [show keysOf (_resetToInitialState g).vertices = ([] : List String) from rfl]
    exact List.nodup_nil
  · intro hc
    rw [show (_resetToInitialState g).currentStage = 0 from rfl] at hc
    exact absurd hc (by decide)
  · intro hc
    rw [show (_resetToInitialState g).currentStage = 0 from rfl] at hc
    exact absurd hc (by decide)

theorem inv_applyOp (g : Graph) (op : Op) (hg : Inv g) : Inv (applyOp g op) := by
  cases op with
  | summaryOp => exact hg
  | exportOp fmt => exact hg
  | initOp t c cfg =>
    show Inv (initializeOp g t c cfg).2
    rcases hcore : initializeCore g t c cfg with e | pr
    · have heq : (initializeOp g t c cfg).2 = _resetToInitialState g := by
        unfold initializeOp
        rw [hcore]
      rw [heq]
      exact inv_reset g
    · obtain ⟨r0, g'⟩ := pr
      have heq : (initializeOp g t c cfg).2 = g' := by
        unfold initializeOp
        rw [hcore]
      rw [heq]
      obtain ⟨h0, -, hstage1, hedges, vtd, vc, sc, -, -, -, hvert⟩ :=
        initializeCore_ok_shape hcore
      have hgv : g.vertices = [] := (hg.2.2.1 h0).1
      have hge : g.edges = [] := (hg.2.2.1 h0).2
      refine ⟨?_, ?_, ?_, ?_, ?_⟩
      · intro p hp _
        rw [hvert] at hp
        rw [List.mem_singleton] at hp
        rw [hp]
      · rw [hvert]
        simp [keysOf]
      · intro hc
        rw [hstage1] at hc
        exact absurd hc (by decide)
      · intro _
        refine ⟨⟨mkRootNode vtd vc sc, hvert, rfl⟩, ?_⟩
        rw [hedges, hgv, hge]
        rfl
      · intro hc
        rw [hstage1] at hc
        exact absurd hc (by decide)
  | decompOp dims =>
    show Inv (decomposeTask g dims).2
    by_cases hst : g.currentStage = 1
    · obtain ⟨⟨nd0, hvert, hnd0⟩, hedges⟩ := hg.2.2.2.1 hst
      have hnn : ¬ g.currentStage ≠ 1 := fun hc => hc hst
      have heq : (decomposeTask g dims).2
          = { (((dims.getD defaultDimensions).enumFrom 0).foldl decompStep (g, [])).1 with
              currentStage := 2, stageLabel := "decomposition" } := by
        unfold decomposeTask
        rw [if_neg hnn]
        rfl
      rw [heq]
      have hv : ∀ j, ("2." ++ natStr (0 + j + 1)) ∉ keysOf g.vertices := by
        intro j hmem
        rw [hvert] at hmem
        simp only [keysOf, List.map_cons, List.map_nil, List.mem_singleton] at hmem
        exact dimKey_ne_n0 (0 + j + 1) hmem
      have he : ∀ j, ("e_n0_2." ++ natStr (0 + j + 1)) ∉ keysOf g.edges := by
        intro j hmem
        rw [hedges] at hmem
        simp [keysOf] at hmem
      obtain ⟨cv, -, -, -⟩ :=
        decompFold_characterization (dims.getD defaultDimensions) 0 g [] hv he
      have hk2 : keysOf ((((dims.getD defaultDimensions).enumFrom 0).foldl
            decompStep (g, [])).1.vertices)
          = "n0" :: keysOf (((dims.getD defaultDimensions).enumFrom 0).map
              (fun p => ("2." ++ natStr (p.1 + 1), mkDimensionNode p.2 p.1))) := by
        rw [cv, hvert]
        rfl
      unfold Inv
      dsimp only
      refine ⟨?_, ?_, fun hc => absurd hc (by decide), fun hc => absurd hc (by decide),
        fun _ => ?_⟩
      · intro p hp hr
        rw [cv, hvert] at hp
        rcases List.mem_append.mp hp with h | h
        · rw [List.mem_singleton] at h
          rw [h]
        · rcases List.mem_map.mp h with ⟨q, hq, hqe⟩
          have hty : p.2.type = "dimension" := by rw [← hqe]; rfl
          rw [hty] at hr
          exact absurd hr (by decide)
      · rw [hk2]
        refine List.nodup_cons.mpr ⟨?_, ?_⟩
        · intro hmem
          rcases List.mem_map.mp hmem with ⟨pr, hpr, hpre⟩
          rcases List.mem_map.mp hpr with ⟨q, hq, hqe⟩
          rw [← hqe] at hpre
          exact dimKey_ne_n0 (q.1 + 1) hpre
        · exact nodup_enumFrom_keys (fun n => "2." ++ natStr (n + 1))
            (fun m n h => by have := dimKey_inj h; omega)
            (fun n d => mkDimensionNode d n) (dims.getD defaultDimensions) 0
      · intro k hk
        rw [hk2] at hk
        rcases List.mem_cons.mp hk with h | h
        · exact Or.inl h
        · rcases List.mem_map.mp h with ⟨pr, hpr, hpre⟩
          rcases List.mem_map.mp hpr with ⟨q, hq, hqe⟩
          rw [← hqe] at hpre
          exact Or.inr ⟨q.1 + 1, hpre.symm⟩
    · have heq : (decomposeTask g dims).2 = g := by
        unfold decomposeTask
        rw [if_pos hst]
      rw [heq]
      exact hg
  | genHypOp d hs c =>
    show Inv (generateHypotheses g d hs c).2
    rcases hcore : generateHypothesesCore g d hs c with e | pr
    · have heq : (generateHypotheses g d hs c).2 = g := by
        unfold generateHypotheses
        rw [hcore]
      rw [heq]
      exact hg
    · obtain ⟨r, g'⟩ := pr
      have heq : (generateHypotheses g d hs c).2 = g' := by
        unfold generateHypotheses
        rw [hcore]
      rw [heq]
      obtain ⟨h2, -, -, -, did, l, hdid, hl, -, hg'eq⟩ := genHypCore_ok_shape hcore
      simp only [enum_eq_enumFrom] at hg'eq
      have hkeys0 : ∀ k ∈ keysOf g.vertices, k = "n0" ∨ (∃ i, k = "2." ++ natStr i)
          ∨ (∃ j, j < 0 ∧ k = "3." ++ ((jsSplitOnDot did).getD 1 "") ++ "." ++ natStr (j + 1)) := by
        intro k hk
        rcases hg.2.2.2.2 h2 k hk with h | h
        · exact Or.inl h
        · exact Or.inr (Or.inl h)
      obtain ⟨-, N, R, -⟩ := hypFold_keys did ((jsSplitOnDot did).getD 1 "")
        (l.take (min (jsOrNat (_validateHypothesisConfig c) 5) 5)) 0 g [] []
        hkeys0 hg.2.1 hg.1
      rw [hg'eq]
      unfold Inv
      dsimp only
      exact ⟨R, N, fun hc => absurd hc (by decide), fun hc => absurd hc (by decide),
        fun hc => absurd hc (by decide)⟩

theorem inv_of_reachable {g : Graph} (h : Reachable g) : Inv g := by
  obtain ⟨eml, ops, rfl⟩ := h
  suffices hall : ∀ (l : List Op) (g0 : Graph), Inv g0 → Inv (l.foldl applyOp g0) by
    exact hall ops (newGraph eml) (inv_newGraph eml)
  intro l
  induction l with
  | nil => exact fun g0 hg0 => hg0
  | cons op rest ih =>
    intro g0 hg0
    exact ih (applyOp g0 op) (inv_applyOp g0 op hg0)

/-! ## Claims C4 and C7 -/

theorem filter_key_length_le_one {α : Type} (l : List (String × α)) (P : String × α → Bool)
    (k : String) (hP : ∀ p ∈ l, P p = true → p.1 = k) (hnd : (keysOf l).Nodup) :
    (l.filter P).length ≤ 1 := by
  induction l with
  | nil => simp
  | cons x t ih =>
    simp only [keysOf, List.map_cons, List.nodup_cons] at hnd
    rw [List.filter_cons]
    split
    · rename_i hPx
      have hxk : x.1 = k := hP x (List.mem_cons_self x t) hPx
      have ht : t.filter P = [] := by
        rw [List.filter_eq_nil_iff]
        intro a ha hPa
        have hak : a.1 = k := hP a (List.mem_cons_of_mem x ha) hPa
        have hmem : a.1 ∈ keysOf t := List.mem_map_of_mem Prod.fst ha
        rw [hak, ← hxk] at hmem
        exact hnd.1 hmem
      rw [ht]
      simp
    · exact ih (fun p hp hPp => hP p (List.mem_cons_of_mem x hp) hPp) hnd.2

/-- C4: in every state reachable by a sequence of the five operations, at most
one vertex of type `root` exists (it can only be `n0`, and vertex keys never
collide); and a root vertex not present before an operation can only appear
through `initialize` executing with the stage cursor at 0 — every other
operation (and `initialize` at a non-zero stage, which resets the graph)
inserts only non-root vertices. -/
theorem root_uniqueness_invariant (g : Graph) (hreach : Reachable g) :
    ((g.vertices.filter (fun p => p.2.type == "root")).length ≤ 1)
    ∧ (∀ op : Op, ∀ p ∈ (applyOp g op).vertices, p.2.type = "root" → p ∉ g.vertices →
        ∃ t c cfg, op = Op.initOp t c cfg ∧ g.currentStage = 0) := by
  have hinv := inv_of_reachable hreach
  constructor
  · exact filter_key_length_le_one g.vertices _ "n0"
      (fun p hp hb => hinv.1 p hp (beq_iff_eq.mp hb)) hinv.2.1
  · intro op p hp hr hnot
    cases op with
    | summaryOp => exact absurd hp hnot
    | exportOp fmt => exact absurd hp hnot
    | decompOp dims =>
      exfalso
      by_cases hst : g.currentStage = 1
      · have hnn : ¬ g.currentStage ≠ 1 := fun hc => hc hst
        have heq : applyOp g (Op.decompOp dims) =
            { (((dims.getD defaultDimensions).enumFrom 0).foldl decompStep (g, [])).1 with
              currentStage := 2, stageLabel := "decomposition" } := by
          show (decomposeTask g dims).2 = _
          unfold decomposeTask
          rw [if_neg hnn]
          rfl
        rw [heq] at hp
        have hp2 : p ∈ ((((dims.getD defaultDimensions).enumFrom 0)).foldl
            decompStep (g, [])).1.vertices := hp
        rcases decompFold_mem _ g [] p hp2 with h | ⟨i, d2, hpd⟩
        · exact hnot h
        · have hty : p.2.type = "dimension" := by rw [hpd]; rfl
          rw [hty] at hr
          exact absurd hr (by decide)
      · have heq : applyOp g (Op.decompOp dims) = g := by
          show (decomposeTask g dims).2 = g
          unfold decomposeTask
          rw [if_pos hst]
        rw [heq] at hp
        exact hnot hp
    | genHypOp d hs c =>
      exfalso
      rcases hcore : generateHypothesesCore g d hs c with e | pr
      · have heq : applyOp g (Op.genHypOp d hs c) = g := by
          show (generateHypotheses g d hs c).2 = g
          unfold generateHypotheses
          rw [hcore]
        rw [heq] at hp
        exact hnot hp
      · obtain ⟨r0, g'⟩ := pr
        have heq : applyOp g (Op.genHypOp d hs c) = g' := by
          show (generateHypotheses g d hs c).2 = g'
          unfold generateHypotheses
          rw [hcore]
        rw [heq] at hp
        obtain ⟨-, -, -, -, did, l, -, -, -, hg'eq⟩ := genHypCore_ok_shape hcore
        rw [hg'eq] at hp
        have hp2 : p ∈ (((l.take (min (jsOrNat (_validateHypothesisConfig c) 5) 5)).enum).foldl
            (hypStep did ((jsSplitOnDot did).getD 1 "")) (g, [], [])).1.vertices := hp
        rcases hypFold_mem _ did ((jsSplitOnDot did).getD 1 "") g [] [] p hp2 with h | ⟨i, v, hpd⟩
        · exact hnot h
        · have hty : p.2.type = "hypothesis" := by rw [hpd]; rfl
          rw [hty] at hr
          exact absurd hr (by decide)
    | initOp t c cfg =>
      rcases hcore : initializeCore g t c cfg with e | pr
      · exfalso
        have heq : applyOp g (Op.initOp t c cfg) = _resetToInitialState g := by
          show (initializeOp g t c cfg).2 = _resetToInitialState g
          unfold initializeOp
          rw [hcore]
        rw [heq] at hp
        rw [show (_resetToInitialState g).vertices = ([] : List (String × Node)) from rfl] at hp
        exact absurd hp (List.not_mem_nil p)
      · obtain ⟨r0, g'⟩ := pr
        exact ⟨t, c, cfg, rfl, (initializeCore_ok_shape hcore).1⟩

theorem root_uniqueness_invariant_witness :
    (g2.vertices.filter (fun p => p.2.type == "root")).length ≤ 1 :=
  (root_uniqueness_invariant g2
    ⟨true, [Op.initOp goodTask none .nullV, Op.decompOp none], rfl⟩).1

/-- C7: calling `decomposeTask` at stage cursor 1 (in any reachable such
state) with `n` dimension names succeeds: for each 1-based index `i` it
creates node `2.<i>` of type `dimension` with confidence means
`[0.8, 0.8, 0.8, 0.8]` and disciplinary tags `_inferDisciplinaryTags` of the
name, one edge `e_n0_2.<i>` from `n0` to `2.<i>` typed `Decomposition`, sets
the cursor to 2, and returns the ordered list of the `n` created node ids. -/
theorem decompose_spec (g : Graph) (dims : List String) (hreach : Reachable g)
    (hst : g.currentStage = 1) :
    ∃ r g', decomposeTask g (some dims) = (.ok r, g')
      ∧ r.success = true
      ∧ r.dimension_nodes = (List.range dims.length).map (fun i => "2." ++ natStr (i + 1))
      ∧ g'.currentStage = 2
      ∧ ∀ i (hi : i < dims.length),
          (∃ nd, g'.vertices.lookup ("2." ++ natStr (i + 1)) = some nd
            ∧ nd.type = "dimension"
            ∧ nd.confidence.means = [mkRat 8 10, mkRat 8 10, mkRat 8 10, mkRat 8 10]
            ∧ nd.metadata.disciplinary_tags = _inferDisciplinaryTags (dims.get ⟨i, hi⟩))
          ∧ (∃ ed, g'.edges.lookup ("e_n0_2." ++ natStr (i + 1)) = some ed
            ∧ ed.source = "n0" ∧ ed.target = "2." ++ natStr (i + 1)
            ∧ ed.metadata.edge_type = "Decomposition") := by
  have hinv := inv_of_reachable hreach
  obtain ⟨⟨nd0, hvert, hnd0⟩, hedges⟩ := hinv.2.2.2.1 hst
  have hnn : ¬ g.currentStage ≠ 1 := fun hc => hc hst
  have hv : ∀ j, ("2." ++ natStr (0 + j + 1)) ∉ keysOf g.vertices := by
    intro j hmem
    rw [hvert] at hmem
    simp only [keysOf, List.map_cons, List.map_nil, List.mem_singleton] at hmem
    exact dimKey_ne_n0 (0 + j + 1) hmem
  have he : ∀ j, ("e_n0_2." ++ natStr (0 + j + 1)) ∉ keysOf g.edges := by
    intro j hmem
    rw [hedges] at hmem
    simp [keysOf] at hmem
  obtain ⟨cv, ce, -, cids⟩ := decompFold_characterization dims 0 g [] hv he
  have heq : decomposeTask g (some dims)
      = (.ok { success := true
               dimension_nodes := ((dims.enumFrom 0).foldl decompStep (g, [])).2
               message := "Task decomposed into " ++ natStr dims.length
                 ++ " dimensions following P1.2 specification exactly"
               current_stage := 2
               stage_name := stageNames.getD 1 ""
               dimensions := dims },
         { ((dims.enumFrom 0).foldl decompStep (g, [])).1 with
           currentStage := 2, stageLabel := "decomposition" }) := by
    unfold decomposeTask
    rw [if_neg hnn]
    rfl
  refine ⟨_, _, heq, rfl, ?_, rfl, ?_⟩
  · show ((dims.enumFrom 0).foldl decompStep (g, [])).2 = _
    rw [cids, List.nil_append]
    have h1 : (dims.enumFrom 0).map (fun p => "2." ++ natStr (p.1 + 1))
        = ((dims.enumFrom 0).map Prod.fst).map (fun i => "2." ++ natStr (i + 1)) := by
      rw [List.map_map]
      rfl
    rw [h1, List.enumFrom_map_fst, ← List.range_eq_range']
  · intro i hi
    constructor
    · refine ⟨mkDimensionNode (dims.get ⟨i, hi⟩) i, ?_, rfl, ?_, rfl⟩
      · rw [show ({ ((dims.enumFrom 0).foldl decompStep (g, [])).1 with
            currentStage := 2, stageLabel := "decomposition" } : Graph).vertices
            = ((dims.enumFrom 0).foldl decompStep (g, [])).1.vertices from rfl]
        rw [cv, hvert]
        rw [lookup_append_right]
        · have hlook := lookup_enumFrom_map (fun n => "2." ++ natStr (n + 1))
              (fun m n h => by have := dimKey_inj h; omega)
              (fun n d => mkDimensionNode d n) dims 0 i hi
          simp only [Nat.zero_add] at hlook
          exact hlook
        · intro hmem
          simp only [keysOf, List.map_cons, List.map_nil, List.mem_singleton] at hmem
          exact dimKey_ne_n0 (i + 1) hmem
      · show (wrapDist [mkRat 8 10, mkRat 8 10, mkRat 8 10, mkRat 8 10]).means
            = [mkRat 8 10, mkRat 8 10, mkRat 8 10, mkRat 8 10]
        decide
    · refine ⟨mkDecompositionEdge i, ?_, rfl, rfl, rfl⟩
      rw [show ({ ((dims.enumFrom 0).foldl decompStep (g, [])).1 with
          currentStage := 2, stageLabel := "decomposition" } : Graph).edges
          = ((dims.enumFrom 0).foldl decompStep (g, [])).1.edges from rfl]
      rw [ce, hedges, List.nil_append]
      have hlook := lookup_enumFrom_map (fun n => "e_n0_2." ++ natStr (n + 1))
          (fun m n h => by have := edgeKey_inj h; omega)
          (fun n _ => mkDecompositionEdge n) dims 0 i hi
      simp only [Nat.zero_add] at hlook
      exact hlook

theorem decompose_spec_witness :
    ∃ r g', decomposeTask g1 (some defaultDimensions) = (.ok r, g')
      ∧ r.success = true
      ∧ r.dimension_nodes
          = (List.range defaultDimensions.length).map (fun i => "2." ++ natStr (i + 1))
      ∧ g'.currentStage = 2
      ∧ ∀ i (hi : i < defaultDimensions.length),
          (∃ nd, g'.vertices.lookup ("2." ++ natStr (i + 1)) = some nd
            ∧ nd.type = "dimension"
            ∧ nd.confidence.means = [mkRat 8 10, mkRat 8 10, mkRat 8 10, mkRat 8 10]
            ∧ nd.metadata.disciplinary_tags
                = _inferDisciplinaryTags (defaultDimensions.get ⟨i, hi⟩))
          ∧ (∃ ed, g'.edges.lookup ("e_n0_2." ++ natStr (i + 1)) = some ed
            ∧ ed.source = "n0" ∧ ed.target = "2." ++ natStr (i + 1)
            ∧ ed.metadata.edge_type = "Decomposition") :=
  decompose_spec g1 defaultDimensions
    ⟨true, [Op.initOp goodTask none .nullV], rfl⟩ (by decide)

end ResearchQuest
